import Mathlib

/-!
Verification of the cluster-api-provider-gcp reconciliation engine
(networks, instances and cluster-controller orchestration services).

The Go services are embedded shallowly: each service method becomes a Lean
function in a state-plus-trace monad `M`, parameterized by a `Cloud`
record that mirrors the per-resource provider interfaces of the source
(`networksInterface`, `routersInterface`, `subnetworksInterface`,
`instancesInterface`, `instancegroupsInterface`).  A concrete map-based
provider `mapCloud` gives the standard GCP-like semantics (Get finds the
stored resource or reports not-found, Insert stores, Patch replaces,
Delete removes).  Every provider call made by the engine is recorded in a
trace so that claims about which mutation calls happen can be stated.
-/

namespace CAPG

/-- Provider error kinds: the engine distinguishes not-found from every
other error via the gcperrors.IsNotFound predicate. -/
inductive GErr where
  | notFound
  | other
deriving DecidableEq

/-- gcperrors.IsNotFound. -/
def isNotFound : GErr → Bool
  | .notFound => true
  | .other => false

/-- gcperrors.IgnoreNotFound on a Go error value (none is a nil error). -/
def ignoreNotFound : Option GErr → Option GErr
  | some .notFound => none
  | e => e

/-- meta.Key: a scoped resource identifier (name plus location scope). -/
structure Key where
  name : String
  location : String
deriving DecidableEq

/-- cloud.GlobalKey. -/
def GlobalKey (n : String) : Key := ⟨n, "global"⟩

/-- cloud.RegionalKey. -/
def RegionalKey (n r : String) : Key := ⟨n, r⟩

/-- cloud.ZonalKey. -/
def ZonalKey (n z : String) : Key := ⟨n, z⟩

/-- compute.SubnetworkSecondaryRange. -/
structure SecondaryRange where
  rangeName : String
  ipCidrRange : String
deriving DecidableEq

/-- compute.Network, restricted to the fields the engine reads or writes. -/
structure Network where
  name : String
  description : String
  selfLink : String
deriving DecidableEq

/-- compute.Router, restricted to the fields the engine reads or writes. -/
structure Router where
  name : String
  network : String
  description : String
  selfLink : String
deriving DecidableEq

/-- compute.Subnetwork, restricted to the fields the engine reads or writes. -/
structure Subnetwork where
  name : String
  network : String
  description : String
  secondaryIpRanges : List SecondaryRange
deriving DecidableEq

/-- compute.MetadataItems (the engine always stores a present string value). -/
structure MetadataItem where
  key : String
  value : String
deriving DecidableEq

/-- compute.AccessConfig, restricted to the NAT IP. -/
structure AccessConfig where
  natIP : String
deriving DecidableEq

/-- compute.NetworkInterface, restricted to the fields the engine reads. -/
structure NetworkInterface where
  networkIP : String
  accessConfigs : List AccessConfig
deriving DecidableEq

/-- compute.Instance, restricted to the fields the engine reads or writes. -/
structure Instance where
  name : String
  selfLink : String
  status : String
  metadataItems : List MetadataItem
  networkInterfaces : List NetworkInterface
deriving DecidableEq

/-- corev1.NodeAddress. -/
structure NodeAddress where
  addrType : String
  address : String
deriving DecidableEq

/-- Modelled from the spec: infrav1.ClusterTagKey, the OwnershipTag — a
deterministic function of the cluster's logical name written into a
resource's description field at creation time (the api/v1alpha4 package is
not part of the embedded sources). -/
def ClusterTagKey (name : String) : String := "capg-cluster-" ++ name

/-- Modelled from the spec: infrav1.InstanceStatusRunning, the observed
"running" instance state. -/
def instanceStatusRunning : String := "RUNNING"

/-- Modelled from the spec: the scope object supplying desired specs and
cluster identity, and receiving output state (self-links, provider ID,
addresses, status).  The scope implementation is not part of the embedded
sources; per the spec the desired specs are read-only inputs and each
accessor hands the engine a copy it may locally mutate, so they are
modelled as immutable fields here, while the output accessors
(Network().Router, Network().SelfLink, SetProviderID, SetAddresses,
SetInstanceStatus) are modelled as the mutable output fields. -/
structure ScopeState where
  name : String
  region : String
  zone : String
  networkName : String
  networkSpec : Network
  natRouterSpec : Router
  subnetworksSpec : List Subnetwork
  instanceSpec : Instance
  controlPlaneGroupName : String
  isControlPlane : Bool
  bootstrapData : Except GErr String
  netRouter : Option String
  netSelfLink : Option String
  providerID : Option String
  addresses : List NodeAddress
  instanceStatus : Option String

/-- One provider API call, as recorded in the trace. -/
inductive CloudCall where
  | getNetwork (k : Key)
  | insertNetwork (k : Key) (spec : Network)
  | deleteNetwork (k : Key)
  | getRouter (k : Key)
  | insertRouter (k : Key) (spec : Router)
  | deleteRouter (k : Key)
  | getSubnetwork (k : Key)
  | insertSubnetwork (k : Key) (spec : Subnetwork)
  | patchSubnetwork (k : Key) (spec : Subnetwork)
  | deleteSubnetwork (k : Key)
  | getInstance (k : Key)
  | insertInstance (k : Key) (spec : Instance)
  | deleteInstance (k : Key)
  | listGroupInstances (k : Key) (state : String)
  | addInstances (k : Key) (selfLink : String)
  | removeInstances (k : Key) (selfLink : String)
deriving DecidableEq

/-- A call is a mutation unless it is a Get or a List. -/
def CloudCall.isMutation : CloudCall → Bool
  | .getNetwork _ => false
  | .getRouter _ => false
  | .getSubnetwork _ => false
  | .getInstance _ => false
  | .listGroupInstances _ _ => false
  | _ => true

/-- The per-resource provider interfaces the services are built over
(networksInterface, routersInterface, subnetworksInterface,
instancesInterface, instancegroupsInterface), over an abstract provider
state σ.  Get returns a resource or an error; the other operations return
a Go error value (none meaning nil). -/
structure Cloud (σ : Type) where
  networksGet : Key → σ → Except GErr Network × σ
  networksInsert : Key → Network → σ → Option GErr × σ
  networksDelete : Key → σ → Option GErr × σ
  routersGet : Key → σ → Except GErr Router × σ
  routersInsert : Key → Router → σ → Option GErr × σ
  routersDelete : Key → σ → Option GErr × σ
  subnetworksGet : Key → σ → Except GErr Subnetwork × σ
  subnetworksInsert : Key → Subnetwork → σ → Option GErr × σ
  subnetworksPatch : Key → Subnetwork → σ → Option GErr × σ
  subnetworksDelete : Key → σ → Option GErr × σ
  instancesGet : Key → σ → Except GErr Instance × σ
  instancesInsert : Key → Instance → σ → Option GErr × σ
  instancesDelete : Key → σ → Option GErr × σ
  instancegroupsListInstances : Key → String → σ → Except GErr (List String) × σ
  instancegroupsAddInstances : Key → String → σ → Option GErr × σ
  instancegroupsRemoveInstances : Key → String → σ → Option GErr × σ

/-- Full state threaded through a reconciliation run: the scope, the
provider state and the accumulated call trace. -/
structure RState (σ : Type) where
  scope : ScopeState
  cloud : σ
  calls : List CloudCall

/-- The state-plus-trace monad the services run in. -/
def M (σ : Type) (α : Type) : Type := RState σ → α × RState σ

instance instMonadM {σ : Type} : Monad (M σ) where
  pure a := fun s => (a, s)
  bind m f := fun s => f (m s).fst (m s).snd

theorem mBind {σ α β : Type} (m : M σ α) (f : α → M σ β) (s : RState σ) :
    (m >>= f) s = f (m s).fst (m s).snd := rfl

theorem mPure {σ α : Type} (a : α) (s : RState σ) :
    (pure a : M σ α) s = (a, s) := rfl

/-- Read the scope. -/
def getScope {σ : Type} : M σ ScopeState := fun s => (s.scope, s)

/-- Mutate the scope's output fields. -/
def modScope {σ : Type} (f : ScopeState → ScopeState) : M σ Unit :=
  fun s => ((), { s with scope := f s.scope })

/-- Record a provider call in the trace. -/
def emit {σ : Type} (c : CloudCall) : M σ Unit :=
  fun s => ((), { s with calls := s.calls ++ [c] })

/-- Run a provider operation on the provider state. -/
def liftCloud {σ α : Type} (f : σ → α × σ) : M σ α :=
  fun s => ((f s.cloud).fst, { s with cloud := (f s.cloud).snd })

def callNetworksGet {σ : Type} (C : Cloud σ) (k : Key) : M σ (Except GErr Network) := do
  emit (.getNetwork k)
  liftCloud (C.networksGet k)

def callNetworksInsert {σ : Type} (C : Cloud σ) (k : Key) (spec : Network) : M σ (Option GErr) := do
  emit (.insertNetwork k spec)
  liftCloud (C.networksInsert k spec)

def callNetworksDelete {σ : Type} (C : Cloud σ) (k : Key) : M σ (Option GErr) := do
  emit (.deleteNetwork k)
  liftCloud (C.networksDelete k)

def callRoutersGet {σ : Type} (C : Cloud σ) (k : Key) : M σ (Except GErr Router) := do
  emit (.getRouter k)
  liftCloud (C.routersGet k)

def callRoutersInsert {σ : Type} (C : Cloud σ) (k : Key) (spec : Router) : M σ (Option GErr) := do
  emit (.insertRouter k spec)
  liftCloud (C.routersInsert k spec)

def callRoutersDelete {σ : Type} (C : Cloud σ) (k : Key) : M σ (Option GErr) := do
  emit (.deleteRouter k)
  liftCloud (C.routersDelete k)

def callSubnetworksGet {σ : Type} (C : Cloud σ) (k : Key) : M σ (Except GErr Subnetwork) := do
  emit (.getSubnetwork k)
  liftCloud (C.subnetworksGet k)

def callSubnetworksInsert {σ : Type} (C : Cloud σ) (k : Key) (spec : Subnetwork) :
    M σ (Option GErr) := do
  emit (.insertSubnetwork k spec)
  liftCloud (C.subnetworksInsert k spec)

def callSubnetworksPatch {σ : Type} (C : Cloud σ) (k : Key) (spec : Subnetwork) :
    M σ (Option GErr) := do
  emit (.patchSubnetwork k spec)
  liftCloud (C.subnetworksPatch k spec)

def callSubnetworksDelete {σ : Type} (C : Cloud σ) (k : Key) : M σ (Option GErr) := do
  emit (.deleteSubnetwork k)
  liftCloud (C.subnetworksDelete k)

def callInstancesGet {σ : Type} (C : Cloud σ) (k : Key) : M σ (Except GErr Instance) := do
  emit (.getInstance k)
  liftCloud (C.instancesGet k)

def callInstancesInsert {σ : Type} (C : Cloud σ) (k : Key) (spec : Instance) :
    M σ (Option GErr) := do
  emit (.insertInstance k spec)
  liftCloud (C.instancesInsert k spec)

def callInstancesDelete {σ : Type} (C : Cloud σ) (k : Key) : M σ (Option GErr) := do
  emit (.deleteInstance k)
  liftCloud (C.instancesDelete k)

def callListGroupInstances {σ : Type} (C : Cloud σ) (k : Key) (state : String) :
    M σ (Except GErr (List String)) := do
  emit (.listGroupInstances k state)
  liftCloud (C.instancegroupsListInstances k state)

def callAddInstances {σ : Type} (C : Cloud σ) (k : Key) (selfLink : String) :
    M σ (Option GErr) := do
  emit (.addInstances k selfLink)
  liftCloud (C.instancegroupsAddInstances k selfLink)

def callRemoveInstances {σ : Type} (C : Cloud σ) (k : Key) (selfLink : String) :
    M σ (Option GErr) := do
  emit (.removeInstances k selfLink)
  liftCloud (C.instancegroupsRemoveInstances k selfLink)

/-! ## The networks service (package networks)

Translated from the networks service source: Reconcile, Delete,
createOrGetNetwork, createOrGetRouter, createOrPatchSubnet and
deleteOrPatchSubnetwork.  A Go `nil` error is `none`; a Go `return err`
is returning `some e`. -/

/-- The names of a secondary-range list (the string set the source builds
with sets.NewString over RangeName fields). -/
def rangeNames (l : List SecondaryRange) : List String :=
  l.map SecondaryRange.rangeName

/-- The additive merge computed by createOrPatchSubnet: start from the
observed ranges and append every spec range whose name is not among the
observed names. -/
def mergeRanges (observed fromSpec : List SecondaryRange) : List SecondaryRange :=
  observed ++ fromSpec.filter (fun r => !((rangeNames observed).contains r.rangeName))

/-- The subtraction computed by deleteOrPatchSubnetwork: keep only the
observed ranges whose name is not among the spec's range names. -/
def subtractRanges (observed fromSpec : List SecondaryRange) : List SecondaryRange :=
  observed.filter (fun r => !((rangeNames fromSpec).contains r.rangeName))

/-- createOrGetNetwork: look up the network; on not-found insert the
scope's network spec and re-fetch; any other lookup error is returned. -/
def createOrGetNetwork {σ : Type} (C : Cloud σ) : M σ (Except GErr Network) := do
  let sc ← getScope
  let networkKey := GlobalKey sc.networkName
  let r ← callNetworksGet C networkKey
  match r with
  | .ok network => pure (.ok network)
  | .error e =>
    if isNotFound e then do
      let ri ← callNetworksInsert C networkKey sc.networkSpec
      match ri with
      | some e2 => pure (.error e2)
      | none => callNetworksGet C networkKey
    else
      pure (.error e)

/-- createOrGetRouter: look up the NAT router; on not-found stamp the
scope's router spec copy with the network self-link and the ownership tag,
insert it and re-fetch; any other lookup error is returned. -/
def createOrGetRouter {σ : Type} (C : Cloud σ) (network : Network) : M σ (Except GErr Router) := do
  let sc ← getScope
  let spec := sc.natRouterSpec
  let routerKey := RegionalKey spec.name sc.region
  let r ← callRoutersGet C routerKey
  match r with
  | .ok router => pure (.ok router)
  | .error e =>
    if isNotFound e then do
      let spec2 := { spec with network := network.selfLink,
                               description := ClusterTagKey sc.name }
      let ri ← callRoutersInsert C routerKey spec2
      match ri with
      | some e2 => pure (.error e2)
      | none => callRoutersGet C routerKey
    else
      pure (.error e)

/-- One iteration of the createOrPatchSubnet loop, for a single subnet
spec: get (inserting a stamped copy and re-fetching on not-found), then
merge the secondary ranges additively and patch only when the merge
changed the observed list. -/
def createOrPatchSubnetStep {σ : Type} (C : Cloud σ) (network : Network) (spec : Subnetwork) :
    M σ (Option GErr) := do
  let sc ← getScope
  let subnetKey := RegionalKey spec.name sc.region
  let r ← callSubnetworksGet C subnetKey
  let rsub : Except GErr Subnetwork ←
    match r with
    | .ok subnet => pure (.ok subnet)
    | .error e =>
      if isNotFound e then do
        let spec2 := { spec with network := network.selfLink,
                                 description := ClusterTagKey sc.name }
        let ri ← callSubnetworksInsert C subnetKey spec2
        match ri with
        | some e2 => pure (.error e2)
        | none => callSubnetworksGet C subnetKey
      else pure (.error e)
  match rsub with
  | .error e => pure (some e)
  | .ok subnet =>
    let merged := mergeRanges subnet.secondaryIpRanges spec.secondaryIpRanges
    if merged ≠ subnet.secondaryIpRanges then do
      let rp ← callSubnetworksPatch C subnetKey { subnet with secondaryIpRanges := merged }
      pure rp
    else
      pure none

/-- The createOrPatchSubnet loop over the subnet spec list: the first
error aborts, otherwise the loop continues. -/
def createOrPatchSubnetLoop {σ : Type} (C : Cloud σ) (network : Network) :
    List Subnetwork → M σ (Option GErr)
  | [] => pure none
  | spec :: rest => do
    let r ← createOrPatchSubnetStep C network spec
    match r with
    | some e => pure (some e)
    | none => createOrPatchSubnetLoop C network rest

/-- createOrPatchSubnet over the scope's subnet spec list. -/
def createOrPatchSubnet {σ : Type} (C : Cloud σ) (network : Network) : M σ (Option GErr) := do
  let sc ← getScope
  createOrPatchSubnetLoop C network sc.subnetworksSpec

/-- The networks service Reconcile: create or get the network; if (and
only if) the network's description equals the cluster's ownership tag,
create or get the NAT router and record its self-link; record the network
self-link; then create or patch the subnets. -/
def networkReconcile {σ : Type} (C : Cloud σ) : M σ (Option GErr) := do
  let r ← createOrGetNetwork C
  match r with
  | .error e => pure (some e)
  | .ok network => do
    let sc ← getScope
    let routerStep : Option GErr ←
      if network.description = ClusterTagKey sc.name then do
        let rr ← createOrGetRouter C network
        match rr with
        | .error e => pure (some e)
        | .ok router => do
          modScope (fun s => { s with netRouter := some router.selfLink })
          pure none
      else
        pure none
    match routerStep with
    | some e => pure (some e)
    | none => do
      modScope (fun s => { s with netSelfLink := some network.selfLink })
      createOrPatchSubnet C network

/-- One iteration of the deleteOrPatchSubnetwork loop.  Note the source's
lookup error handling here: a lookup error that is NOT not-found makes the
loop continue with the next spec, while a not-found lookup error is
returned and aborts Delete — the reverse of the pattern used by every
other lookup in the service. -/
def deleteOrPatchSubnetworkStep {σ : Type} (C : Cloud σ) (spec : Subnetwork) :
    M σ (Option GErr) := do
  let sc ← getScope
  let subnetKey := RegionalKey spec.name sc.region
  let r ← callSubnetworksGet C subnetKey
  match r with
  | .error e =>
    if !(isNotFound e) then
      pure none
    else
      pure (some e)
  | .ok subnet =>
    if subnet.description = ClusterTagKey sc.name then do
      let rd ← callSubnetworksDelete C subnetKey
      match rd with
      | some e => pure (some e)
      | none => pure none
    else do
      let restored := subtractRanges subnet.secondaryIpRanges spec.secondaryIpRanges
      if restored ≠ subnet.secondaryIpRanges then do
        let rp ← callSubnetworksPatch C subnetKey { subnet with secondaryIpRanges := restored }
        pure rp
      else
        pure none

/-- The deleteOrPatchSubnetwork loop over the subnet spec list. -/
def deleteOrPatchSubnetworkLoop {σ : Type} (C : Cloud σ) :
    List Subnetwork → M σ (Option GErr)
  | [] => pure none
  | spec :: rest => do
    let r ← deleteOrPatchSubnetworkStep C spec
    match r with
    | some e => pure (some e)
    | none => deleteOrPatchSubnetworkLoop C rest

/-- deleteOrPatchSubnetwork over the scope's subnet spec list. -/
def deleteOrPatchSubnetwork {σ : Type} (C : Cloud σ) : M σ (Option GErr) := do
  let sc ← getScope
  deleteOrPatchSubnetworkLoop C sc.subnetworksSpec

/-- The networks service Delete: delete or patch the subnets; look up the
network (swallowing not-found); stop silently when the network is not
self-owned; otherwise look up the router (tolerating not-found), delete it
when self-owned (tolerating not-found), delete the network (propagating
every error), and clear the recorded self-links. -/
def networkDelete {σ : Type} (C : Cloud σ) : M σ (Option GErr) := do
  let r ← deleteOrPatchSubnetwork C
  match r with
  | some e => pure (some e)
  | none => do
    let sc ← getScope
    let networkKey := GlobalKey sc.networkName
    let rn ← callNetworksGet C networkKey
    match rn with
    | .error e => pure (ignoreNotFound (some e))
    | .ok network =>
      if network.description ≠ ClusterTagKey sc.name then
        pure none
      else do
        let routerKey := RegionalKey sc.natRouterSpec.name sc.region
        let rr ← callRoutersGet C routerKey
        let routerLookup : Except GErr (Option Router) :=
          match rr with
          | .ok router => .ok (some router)
          | .error e => if isNotFound e then .ok none else .error e
        match routerLookup with
        | .error e => pure (some e)
        | .ok routerOpt => do
          let routerStep : Option GErr ←
            match routerOpt with
            | some router =>
              if router.description = ClusterTagKey sc.name then do
                let rd ← callRoutersDelete C routerKey
                match rd with
                | some e => if isNotFound e then pure none else pure (some e)
                | none => pure none
              else
                pure none
            | none => pure none
          match routerStep with
          | some e => pure (some e)
          | none => do
            let rnd ← callNetworksDelete C networkKey
            match rnd with
            | some e => pure (some e)
            | none => do
              modScope (fun s => { s with netRouter := none, netSelfLink := none })
              pure none

/-! ## The instances service (package instances) -/

/-- The node addresses derived from an instance's network interfaces: for
each interface, one internal address, then one external address per
access config, in provider order. -/
def computeAddresses (ifaces : List NetworkInterface) : List NodeAddress :=
  ifaces.flatMap (fun iface =>
    { addrType := "InternalIP", address := iface.networkIP } ::
      iface.accessConfigs.map (fun ac =>
        { addrType := "ExternalIP", address := ac.natIP }))

/-- createOrGetInstance: fetch the bootstrap payload (a failure is fatal),
append the user-data item to a copy of the scope's instance spec, look the
instance up and, on not-found, insert the prepared spec and re-fetch; any
other lookup error is returned. -/
def createOrGetInstance {σ : Type} (C : Cloud σ) : M σ (Except GErr Instance) := do
  let sc ← getScope
  match sc.bootstrapData with
  | .error e => pure (.error e)
  | .ok bootstrapData => do
    let spec0 := sc.instanceSpec
    let instanceKey := ZonalKey spec0.name sc.zone
    let instanceSpec :=
      { spec0 with metadataItems :=
          spec0.metadataItems ++ [{ key := "user-data", value := bootstrapData }] }
    let r ← callInstancesGet C instanceKey
    match r with
    | .ok inst => pure (.ok inst)
    | .error e =>
      if isNotFound e then do
        let ri ← callInstancesInsert C instanceKey instanceSpec
        match ri with
        | some e2 => pure (.error e2)
        | none => callInstancesGet C instanceKey
      else
        pure (.error e)

/-- registerControlPlaneInstance: list the RUNNING members of the
control-plane instance group; add the instance only when its self-link is
not already among them and its observed status is RUNNING. -/
def registerControlPlaneInstance {σ : Type} (C : Cloud σ) (inst : Instance) :
    M σ (Option GErr) := do
  let sc ← getScope
  let instancegroupKey := ZonalKey sc.controlPlaneGroupName sc.zone
  let r ← callListGroupInstances C instancegroupKey instanceStatusRunning
  match r with
  | .error e => pure (some e)
  | .ok instanceList =>
    if !(instanceList.contains inst.selfLink) && inst.status == instanceStatusRunning then
      callAddInstances C instancegroupKey inst.selfLink
    else
      pure none

/-- deregisterControlPlaneInstance: list the RUNNING members of the
control-plane instance group; remove the instance only when the list is
non-empty and contains its self-link. -/
def deregisterControlPlaneInstance {σ : Type} (C : Cloud σ) (inst : Instance) :
    M σ (Option GErr) := do
  let sc ← getScope
  let instancegroupKey := ZonalKey sc.controlPlaneGroupName sc.zone
  let r ← callListGroupInstances C instancegroupKey instanceStatusRunning
  match r with
  | .error e => pure (some e)
  | .ok instanceList =>
    if !(instanceList.isEmpty) && instanceList.contains inst.selfLink then
      callRemoveInstances C instancegroupKey inst.selfLink
    else
      pure none

/-- The instances service Reconcile: create or get the instance, derive
and record the node addresses, provider ID and status, and for a
control-plane machine register the instance in the instance group. -/
def instanceReconcile {σ : Type} (C : Cloud σ) : M σ (Option GErr) := do
  let r ← createOrGetInstance C
  match r with
  | .error e => pure (some e)
  | .ok inst => do
    let addrs := computeAddresses inst.networkInterfaces
    modScope (fun s => { s with providerID := some inst.selfLink,
                                addresses := addrs,
                                instanceStatus := some inst.status })
    let sc ← getScope
    if sc.isControlPlane then
      registerControlPlaneInstance C inst
    else
      pure none

/-- The instances service Delete: look up the instance (not-found is an
idempotent no-op); for a control-plane machine deregister it from the
instance group; then delete the instance, tolerating not-found. -/
def instanceDelete {σ : Type} (C : Cloud σ) : M σ (Option GErr) := do
  let sc ← getScope
  let instanceKey := ZonalKey sc.instanceSpec.name sc.zone
  let r ← callInstancesGet C instanceKey
  match r with
  | .error e =>
    if !(isNotFound e) then pure (some e) else pure none
  | .ok inst => do
    let rd : Option GErr ←
      if sc.isControlPlane then
        deregisterControlPlaneInstance C inst
      else
        pure none
    match rd with
    | some e => pure (some e)
    | none => do
      let rdel ← callInstancesDelete C instanceKey
      pure (ignoreNotFound rdel)

/-! ## The cluster controller (GCPClusterReconciler) -/

/-- A component reconciler invoked by the cluster controller. -/
inductive Comp where
  | network
  | firewall
  | loadbalancer
deriving DecidableEq

/-- The create-path component sequence of GCPClusterReconciler.reconcile:
prelude steps (finalizer patch, region get, zone list), then the network,
firewall and load-balancer reconcilers in that order, aborting on the
first error.  The prelude, firewall and load-balancer outcomes are
modelled from the spec as abstract results, since their bodies are not
part of the embedded sources; the network component is the networks
service Reconcile.  The returned list records which components were
invoked, in order. -/
def gcpClusterReconcile {σ : Type} (C : Cloud σ)
    (preludeRes fwRes lbRes : Option GErr) : M σ (Option GErr × List Comp) := do
  match preludeRes with
  | some e => pure (some e, [])
  | none => do
    let rn ← networkReconcile C
    match rn with
    | some e => pure (some e, [Comp.network])
    | none =>
      match fwRes with
      | some e => pure (some e, [Comp.network, Comp.firewall])
      | none =>
        match lbRes with
        | some e => pure (some e, [Comp.network, Comp.firewall, Comp.loadbalancer])
        | none => pure (none, [Comp.network, Comp.firewall, Comp.loadbalancer])

/-- The delete-path component sequence of
GCPClusterReconciler.reconcileDelete: the load-balancer, firewall and
network deleters in that order — the exact reverse of the create path —
aborting on the first error.  Firewall and load-balancer outcomes are
modelled from the spec as abstract results; the network component is the
networks service Delete. -/
def gcpClusterReconcileDelete {σ : Type} (C : Cloud σ)
    (lbRes fwRes : Option GErr) : M σ (Option GErr × List Comp) := do
  match lbRes with
  | some e => pure (some e, [Comp.loadbalancer])
  | none =>
    match fwRes with
    | some e => pure (some e, [Comp.loadbalancer, Comp.firewall])
    | none => do
      let rn ← networkDelete C
      match rn with
      | some e => pure (some e, [Comp.loadbalancer, Comp.firewall, Comp.network])
      | none => pure (none, [Comp.loadbalancer, Comp.firewall, Comp.network])

/-- The per-cluster reconciliation composed with the per-machine one: the
cluster network reconciler followed, on success, by the machine instance
reconciler (both against the same provider). -/
def systemReconcile {σ : Type} (C : Cloud σ) : M σ (Option GErr) := do
  let r ← networkReconcile C
  match r with
  | some e => pure (some e)
  | none => instanceReconcile C

/-! ## The concrete map-based provider -/

/-- Association-list lookup by key. -/
def lookupK {α : Type} (l : List (Key × α)) (k : Key) : Option α :=
  (l.find? (fun p => p.fst == k)).map Prod.snd

/-- Association-list insert-or-replace. -/
def insertK {α : Type} (l : List (Key × α)) (k : Key) (a : α) : List (Key × α) :=
  (k, a) :: l.filter (fun p => !(p.fst == k))

/-- Association-list removal. -/
def removeK {α : Type} (l : List (Key × α)) (k : Key) : List (Key × α) :=
  l.filter (fun p => !(p.fst == k))

/-- The provider-side resource store: resources by key, and instance-group
membership lists (of instance self-links) by group key. -/
structure CloudState where
  networks : List (Key × Network)
  routers : List (Key × Router)
  subnets : List (Key × Subnetwork)
  instances : List (Key × Instance)
  groups : List (Key × List String)
deriving DecidableEq

/-- Whether some stored instance with the given self-link is observed in
the RUNNING state (used to filter instance-group member listings). -/
def runningLink (s : CloudState) (sl : String) : Bool :=
  s.instances.any (fun p => p.snd.selfLink == sl && p.snd.status == instanceStatusRunning)

/-- The RUNNING-state filtering of a member list. -/
def runningOf (s : CloudState) (members : List String) : List String :=
  members.filter (fun sl => runningLink s sl)

/-- The standard provider semantics over CloudState: Get finds the stored
resource or reports not-found; Insert stores a new resource (a duplicate
insert is an error); Patch replaces an existing resource; Delete removes
an existing resource and reports not-found otherwise; ListInstances
returns the group members filtered by the requested state; AddInstances
and RemoveInstances edit an existing group's member list. -/
def mapCloud : Cloud CloudState where
  networksGet := fun k s =>
    match lookupK s.networks k with
    | some n => (.ok n, s)
    | none => (.error .notFound, s)
  networksInsert := fun k n s =>
    match lookupK s.networks k with
    | some _ => (some .other, s)
    | none => (none, { s with networks := insertK s.networks k n })
  networksDelete := fun k s =>
    match lookupK s.networks k with
    | some _ => (none, { s with networks := removeK s.networks k })
    | none => (some .notFound, s)
  routersGet := fun k s =>
    match lookupK s.routers k with
    | some r => (.ok r, s)
    | none => (.error .notFound, s)
  routersInsert := fun k r s =>
    match lookupK s.routers k with
    | some _ => (some .other, s)
    | none => (none, { s with routers := insertK s.routers k r })
  routersDelete := fun k s =>
    match lookupK s.routers k with
    | some _ => (none, { s with routers := removeK s.routers k })
    | none => (some .notFound, s)
  subnetworksGet := fun k s =>
    match lookupK s.subnets k with
    | some sub => (.ok sub, s)
    | none => (.error .notFound, s)
  subnetworksInsert := fun k sub s =>
    match lookupK s.subnets k with
    | some _ => (some .other, s)
    | none => (none, { s with subnets := insertK s.subnets k sub })
  subnetworksPatch := fun k sub s =>
    match lookupK s.subnets k with
    | some _ => (none, { s with subnets := insertK s.subnets k sub })
    | none => (some .notFound, s)
  subnetworksDelete := fun k s =>
    match lookupK s.subnets k with
    | some _ => (none, { s with subnets := removeK s.subnets k })
    | none => (some .notFound, s)
  instancesGet := fun k s =>
    match lookupK s.instances k with
    | some i => (.ok i, s)
    | none => (.error .notFound, s)
  instancesInsert := fun k i s =>
    match lookupK s.instances k with
    | some _ => (some .other, s)
    | none => (none, { s with instances := insertK s.instances k i })
  instancesDelete := fun k s =>
    match lookupK s.instances k with
    | some _ => (none, { s with instances := removeK s.instances k })
    | none => (some .notFound, s)
  instancegroupsListInstances := fun k state s =>
    match lookupK s.groups k with
    | some members =>
      (.ok (if state == instanceStatusRunning then runningOf s members else members), s)
    | none => (.error .notFound, s)
  instancegroupsAddInstances := fun k sl s =>
    match lookupK s.groups k with
    | some members => (none, { s with groups := insertK s.groups k (members ++ [sl]) })
    | none => (some .notFound, s)
  instancegroupsRemoveInstances := fun k sl s =>
    match lookupK s.groups k with
    | some members =>
      (none, { s with groups := insertK s.groups k (members.filter (fun x => !(x == sl))) })
    | none => (some .notFound, s)

/-- Run a monadic computation from a scope and a provider state with an
empty call trace. -/
def runM {σ α : Type} (m : M σ α) (sc : ScopeState) (cl : σ) : α × RState σ :=
  m { scope := sc, cloud := cl, calls := [] }

/-! ## Association-list lemmas -/

theorem lookupK_insert_self {α : Type} (l : List (Key × α)) (k : Key) (a : α) :
    lookupK (insertK l k a) k = some a := by
  simp [lookupK, insertK, List.find?]

theorem find?_filter_of_imp {α : Type} (p q : α → Bool) (l : List α)
    (h : ∀ x, p x = true → q x = true) :
    (l.filter q).find? p = l.find? p := by
  induction l with
  | nil => rfl
  | cons x xs ih =>
    by_cases hp : p x = true
    · have hq := h x hp
      simp [List.filter, hq, List.find?, hp, ih]
    · have hp' : p x = false := by
        cases hpx : p x
        · rfl
        · exact absurd hpx hp
      cases hqx : q x
      · simp [List.filter, hqx, List.find?, hp', ih]
      · simp [List.filter, hqx, List.find?, hp', ih]

theorem lookupK_insert_ne {α : Type} (l : List (Key × α)) (k k2 : Key) (a : α)
    (h : k2 ≠ k) : lookupK (insertK l k a) k2 = lookupK l k2 := by
  have hk : (k == k2) = false := by
    simp only [beq_eq_false_iff_ne, ne_eq]
    exact fun he => h he.symm
  simp only [lookupK, insertK, List.find?, hk]
  rw [find?_filter_of_imp]
  intro x hx
  simp only [beq_iff_eq] at hx
  simp only [Bool.not_eq_true', beq_eq_false_iff_ne, ne_eq, hx]
  exact h

theorem lookupK_remove_self {α : Type} (l : List (Key × α)) (k : Key) :
    lookupK (removeK l k) k = none := by
  have hfind : (removeK l k).find? (fun p => p.fst == k) = none := by
    rw [List.find?_eq_none]
    intro x hx
    have := List.of_mem_filter hx
    simp only [Bool.not_eq_true', beq_eq_false_iff_ne, ne_eq] at this
    simp only [Bool.not_eq_true, beq_eq_false_iff_ne, ne_eq]
    exact this
  simp [lookupK, hfind]

theorem lookupK_remove_ne {α : Type} (l : List (Key × α)) (k k2 : Key)
    (h : k2 ≠ k) : lookupK (removeK l k) k2 = lookupK l k2 := by
  simp only [lookupK, removeK]
  rw [find?_filter_of_imp]
  intro x hx
  simp only [beq_iff_eq] at hx
  simp only [Bool.not_eq_true', beq_eq_false_iff_ne, ne_eq, hx]
  exact h

theorem lookupK_mem {α : Type} (l : List (Key × α)) (k : Key) (a : α)
    (h : lookupK l k = some a) : (k, a) ∈ l := by
  unfold lookupK at h
  cases hf : List.find? (fun p => p.fst == k) l with
  | none => rw [hf] at h; exact Option.noConfusion h
  | some p =>
    rw [hf] at h
    rw [Option.map_some'] at h
    rw [Option.some_inj] at h
    have hmem := List.mem_of_find?_eq_some hf
    have hpred := List.find?_some hf
    simp only [beq_iff_eq] at hpred
    obtain ⟨pk, pa⟩ := p
    simp only at hpred h
    rw [hpred, h] at hmem
    exact hmem

/-! ## Secondary-range merge lemmas -/

/-- Every range name of the spec list occurs among the observed names. -/
def rangesClosed (o sp : List SecondaryRange) : Prop :=
  ∀ r ∈ sp, r.rangeName ∈ rangeNames o

theorem contains_iff_mem_names (o : List SecondaryRange) (n : String) :
    ((rangeNames o).contains n) = true ↔ n ∈ rangeNames o := by
  simp

theorem mergeRanges_eq_iff (o sp : List SecondaryRange) :
    mergeRanges o sp = o ↔ rangesClosed o sp := by
  unfold mergeRanges rangesClosed
  constructor
  · intro h r hr
    have hnil : sp.filter (fun r => !((rangeNames o).contains r.rangeName)) = [] := by
      have := congrArg List.length h
      simp only [List.length_append] at this
      have hlen : (sp.filter (fun r => !((rangeNames o).contains r.rangeName))).length = 0 :=
        by omega
      exact List.length_eq_zero.mp hlen
    rw [List.filter_eq_nil_iff] at hnil
    have := hnil r hr
    simp only [Bool.not_eq_true', Bool.not_eq_false] at this
    exact (contains_iff_mem_names o r.rangeName).mp this
  · intro h
    have hnil : sp.filter (fun r => !((rangeNames o).contains r.rangeName)) = [] := by
      rw [List.filter_eq_nil_iff]
      intro r hr
      have hmem : r.rangeName ∈ rangeNames o := h r hr
      simp [hmem]
    rw [hnil, List.append_nil]

theorem rangeNames_mergeRanges_subset (o sp : List SecondaryRange) :
    ∀ n ∈ rangeNames o, n ∈ rangeNames (mergeRanges o sp) := by
  intro n hn
  simp only [mergeRanges, rangeNames, List.map_append, List.mem_append]
  exact Or.inl hn

theorem rangesClosed_of_subset (o o2 sp : List SecondaryRange)
    (hsub : ∀ n ∈ rangeNames o, n ∈ rangeNames o2)
    (h : rangesClosed o sp) : rangesClosed o2 sp :=
  fun r hr => hsub r.rangeName (h r hr)

theorem rangesClosed_mergeRanges (o sp : List SecondaryRange) :
    rangesClosed (mergeRanges o sp) sp := by
  intro r hr
  by_cases hc : ((rangeNames o).contains r.rangeName) = true
  · have := (contains_iff_mem_names o r.rangeName).mp hc
    exact rangeNames_mergeRanges_subset o sp r.rangeName this
  · have hb : (!((rangeNames o).contains r.rangeName)) = true := by
      simp only [Bool.not_eq_true'] at *
      cases hx : (rangeNames o).contains r.rangeName
      · rfl
      · exact absurd hx hc
    unfold mergeRanges rangeNames
    simp only [List.map_append, List.mem_append, List.mem_map]
    refine Or.inr ⟨r, ?_, rfl⟩
    exact List.mem_filter.mpr ⟨hr, hb⟩

theorem rangesClosed_refl (sp : List SecondaryRange) : rangesClosed sp sp :=
  fun _ hr => List.mem_map_of_mem SecondaryRange.rangeName hr

theorem mergeRanges_self (sp : List SecondaryRange) : mergeRanges sp sp = sp :=
  (mergeRanges_eq_iff sp sp).mpr (rangesClosed_refl sp)

/-! ## Evaluation lemmas for provider calls against the map provider -/

theorem networksGet_found (sc : ScopeState) (cl : CloudState) (cs : List CloudCall) (k : Key) (n : Network)
    (h : lookupK cl.networks k = some n) :
    callNetworksGet mapCloud k ⟨sc, cl, cs⟩ =
      (.ok n, ⟨sc, cl, cs ++ [.getNetwork k]⟩) := by
  simp only [callNetworksGet, mBind, emit, liftCloud, mapCloud, h]

theorem networksGet_absent (sc : ScopeState) (cl : CloudState) (cs : List CloudCall) (k : Key)
    (h : lookupK cl.networks k = none) :
    callNetworksGet mapCloud k ⟨sc, cl, cs⟩ =
      (.error .notFound, ⟨sc, cl, cs ++ [.getNetwork k]⟩) := by
  simp only [callNetworksGet, mBind, emit, liftCloud, mapCloud, h]

theorem networksInsert_absent (sc : ScopeState) (cl : CloudState) (cs : List CloudCall) (k : Key) (n : Network)
    (h : lookupK cl.networks k = none) :
    callNetworksInsert mapCloud k n ⟨sc, cl, cs⟩ =
      (none, ⟨sc, { cl with networks := insertK cl.networks k n }, cs ++ [.insertNetwork k n]⟩) := by
  simp only [callNetworksInsert, mBind, emit, liftCloud, mapCloud, h]

theorem routersGet_found (sc : ScopeState) (cl : CloudState) (cs : List CloudCall) (k : Key) (r : Router)
    (h : lookupK cl.routers k = some r) :
    callRoutersGet mapCloud k ⟨sc, cl, cs⟩ =
      (.ok r, ⟨sc, cl, cs ++ [.getRouter k]⟩) := by
  simp only [callRoutersGet, mBind, emit, liftCloud, mapCloud, h]

theorem routersGet_absent (sc : ScopeState) (cl : CloudState) (cs : List CloudCall) (k : Key)
    (h : lookupK cl.routers k = none) :
    callRoutersGet mapCloud k ⟨sc, cl, cs⟩ =
      (.error .notFound, ⟨sc, cl, cs ++ [.getRouter k]⟩) := by
  simp only [callRoutersGet, mBind, emit, liftCloud, mapCloud, h]

theorem routersInsert_absent (sc : ScopeState) (cl : CloudState) (cs : List CloudCall) (k : Key) (r : Router)
    (h : lookupK cl.routers k = none) :
    callRoutersInsert mapCloud k r ⟨sc, cl, cs⟩ =
      (none, ⟨sc, { cl with routers := insertK cl.routers k r }, cs ++ [.insertRouter k r]⟩) := by
  simp only [callRoutersInsert, mBind, emit, liftCloud, mapCloud, h]

theorem routersDelete_found (sc : ScopeState) (cl : CloudState) (cs : List CloudCall) (k : Key) (r : Router)
    (h : lookupK cl.routers k = some r) :
    callRoutersDelete mapCloud k ⟨sc, cl, cs⟩ =
      (none, ⟨sc, { cl with routers := removeK cl.routers k }, cs ++ [.deleteRouter k]⟩) := by
  simp only [callRoutersDelete, mBind, emit, liftCloud, mapCloud, h]

theorem subnetworksGet_found (sc : ScopeState) (cl : CloudState) (cs : List CloudCall) (k : Key) (sub : Subnetwork)
    (h : lookupK cl.subnets k = some sub) :
    callSubnetworksGet mapCloud k ⟨sc, cl, cs⟩ =
      (.ok sub, ⟨sc, cl, cs ++ [.getSubnetwork k]⟩) := by
  simp only [callSubnetworksGet, mBind, emit, liftCloud, mapCloud, h]

theorem subnetworksGet_absent (sc : ScopeState) (cl : CloudState) (cs : List CloudCall) (k : Key)
    (h : lookupK cl.subnets k = none) :
    callSubnetworksGet mapCloud k ⟨sc, cl, cs⟩ =
      (.error .notFound, ⟨sc, cl, cs ++ [.getSubnetwork k]⟩) := by
  simp only [callSubnetworksGet, mBind, emit, liftCloud, mapCloud, h]

theorem subnetworksInsert_absent (sc : ScopeState) (cl : CloudState) (cs : List CloudCall) (k : Key) (sub : Subnetwork)
    (h : lookupK cl.subnets k = none) :
    callSubnetworksInsert mapCloud k sub ⟨sc, cl, cs⟩ =
      (none, ⟨sc, { cl with subnets := insertK cl.subnets k sub }, cs ++ [.insertSubnetwork k sub]⟩) := by
  simp only [callSubnetworksInsert, mBind, emit, liftCloud, mapCloud, h]

theorem subnetworksPatch_found (sc : ScopeState) (cl : CloudState) (cs : List CloudCall) (k : Key) (prev sub : Subnetwork)
    (h : lookupK cl.subnets k = some prev) :
    callSubnetworksPatch mapCloud k sub ⟨sc, cl, cs⟩ =
      (none, ⟨sc, { cl with subnets := insertK cl.subnets k sub }, cs ++ [.patchSubnetwork k sub]⟩) := by
  simp only [callSubnetworksPatch, mBind, emit, liftCloud, mapCloud, h]

theorem subnetworksDelete_found (sc : ScopeState) (cl : CloudState) (cs : List CloudCall) (k : Key) (prev : Subnetwork)
    (h : lookupK cl.subnets k = some prev) :
    callSubnetworksDelete mapCloud k ⟨sc, cl, cs⟩ =
      (none, ⟨sc, { cl with subnets := removeK cl.subnets k }, cs ++ [.deleteSubnetwork k]⟩) := by
  simp only [callSubnetworksDelete, mBind, emit, liftCloud, mapCloud, h]

theorem instancesGet_found (sc : ScopeState) (cl : CloudState) (cs : List CloudCall) (k : Key) (i : Instance)
    (h : lookupK cl.instances k = some i) :
    callInstancesGet mapCloud k ⟨sc, cl, cs⟩ =
      (.ok i, ⟨sc, cl, cs ++ [.getInstance k]⟩) := by
  simp only [callInstancesGet, mBind, emit, liftCloud, mapCloud, h]

theorem instancesGet_absent (sc : ScopeState) (cl : CloudState) (cs : List CloudCall) (k : Key)
    (h : lookupK cl.instances k = none) :
    callInstancesGet mapCloud k ⟨sc, cl, cs⟩ =
      (.error .notFound, ⟨sc, cl, cs ++ [.getInstance k]⟩) := by
  simp only [callInstancesGet, mBind, emit, liftCloud, mapCloud, h]

theorem instancesInsert_absent (sc : ScopeState) (cl : CloudState) (cs : List CloudCall) (k : Key) (i : Instance)
    (h : lookupK cl.instances k = none) :
    callInstancesInsert mapCloud k i ⟨sc, cl, cs⟩ =
      (none, ⟨sc, { cl with instances := insertK cl.instances k i }, cs ++ [.insertInstance k i]⟩) := by
  simp only [callInstancesInsert, mBind, emit, liftCloud, mapCloud, h]

theorem instancesDelete_found (sc : ScopeState) (cl : CloudState) (cs : List CloudCall) (k : Key) (i : Instance)
    (h : lookupK cl.instances k = some i) :
    callInstancesDelete mapCloud k ⟨sc, cl, cs⟩ =
      (none, ⟨sc, { cl with instances := removeK cl.instances k }, cs ++ [.deleteInstance k]⟩) := by
  simp only [callInstancesDelete, mBind, emit, liftCloud, mapCloud, h]

theorem addInstances_found (sc : ScopeState) (cl : CloudState) (cs : List CloudCall) (k : Key) (sl : String)
    (members : List String) (h : lookupK cl.groups k = some members) :
    callAddInstances mapCloud k sl ⟨sc, cl, cs⟩ =
      (none, ⟨sc, { cl with groups := insertK cl.groups k (members ++ [sl]) }, cs ++ [.addInstances k sl]⟩) := by
  simp only [callAddInstances, mBind, emit, liftCloud, mapCloud, h]

theorem removeInstances_found (sc : ScopeState) (cl : CloudState) (cs : List CloudCall) (k : Key) (sl : String)
    (members : List String) (h : lookupK cl.groups k = some members) :
    callRemoveInstances mapCloud k sl ⟨sc, cl, cs⟩ =
      (none, ⟨sc, { cl with groups := insertK cl.groups k (members.filter (fun x => !(x == sl))) }, cs ++ [.removeInstances k sl]⟩) := by
  simp only [callRemoveInstances, mBind, emit, liftCloud, mapCloud, h]

theorem listGroupInstances_found (sc : ScopeState) (cl : CloudState) (cs : List CloudCall)
    (k : Key) (members : List String) (h : lookupK cl.groups k = some members) :
    callListGroupInstances mapCloud k instanceStatusRunning ⟨sc, cl, cs⟩ =
      (.ok (runningOf cl members),
        ⟨sc, cl, cs ++ [.listGroupInstances k instanceStatusRunning]⟩) := by
  simp only [callListGroupInstances, mBind, emit, liftCloud, mapCloud, h]
  simp

/-! ## Scope frame predicate -/

/-- The engine only writes the scope's output fields: every input field
(identity, desired specs, bootstrap payload) of b agrees with a. -/
def outputsOnly (a b : ScopeState) : Prop :=
  b.name = a.name ∧ b.region = a.region ∧ b.zone = a.zone ∧
  b.networkName = a.networkName ∧ b.networkSpec = a.networkSpec ∧
  b.natRouterSpec = a.natRouterSpec ∧ b.subnetworksSpec = a.subnetworksSpec ∧
  b.instanceSpec = a.instanceSpec ∧ b.controlPlaneGroupName = a.controlPlaneGroupName ∧
  b.isControlPlane = a.isControlPlane ∧ b.bootstrapData = a.bootstrapData

theorem outputsOnly_refl (a : ScopeState) : outputsOnly a a := by
  simp [outputsOnly]

theorem outputsOnly_trans {a b c : ScopeState}
    (h1 : outputsOnly a b) (h2 : outputsOnly b c) : outputsOnly a c := by
  obtain ⟨e1, e2, e3, e4, e5, e6, e7, e8, e9, e10, e11⟩ := h1
  obtain ⟨f1, f2, f3, f4, f5, f6, f7, f8, f9, f10, f11⟩ := h2
  exact ⟨f1.trans e1, f2.trans e2, f3.trans e3, f4.trans e4, f5.trans e5, f6.trans e6,
    f7.trans e7, f8.trans e8, f9.trans e9, f10.trans e10, f11.trans e11⟩

/-- Whether a call addresses the subnetworks interface. -/
def CloudCall.isSubnetCall : CloudCall → Bool
  | .getSubnetwork _ => true
  | .insertSubnetwork _ _ => true
  | .patchSubnetwork _ _ => true
  | .deleteSubnetwork _ => true
  | _ => false

/-! ## createOrGetNetwork / createOrGetRouter evaluation -/

theorem createOrGetNetwork_found (sc : ScopeState) (cl : CloudState) (cs : List CloudCall)
    (n : Network) (h : lookupK cl.networks (GlobalKey sc.networkName) = some n) :
    createOrGetNetwork mapCloud ⟨sc, cl, cs⟩ =
      (.ok n, ⟨sc, cl, cs ++ [.getNetwork (GlobalKey sc.networkName)]⟩) := by
  simp only [createOrGetNetwork, mBind, mPure, getScope]
  rw [networksGet_found sc cl cs _ n h]
  rfl

theorem createOrGetNetwork_absent (sc : ScopeState) (cl : CloudState) (cs : List CloudCall)
    (h : lookupK cl.networks (GlobalKey sc.networkName) = none) :
    createOrGetNetwork mapCloud ⟨sc, cl, cs⟩ =
      (.ok sc.networkSpec,
       ⟨sc, { cl with networks := insertK cl.networks (GlobalKey sc.networkName) sc.networkSpec },
        cs ++ [.getNetwork (GlobalKey sc.networkName),
          .insertNetwork (GlobalKey sc.networkName) sc.networkSpec,
          .getNetwork (GlobalKey sc.networkName)]⟩) := by
  simp only [createOrGetNetwork, mBind, mPure, getScope]
  rw [networksGet_absent sc cl cs _ h]
  simp only [isNotFound, if_true, mBind, mPure]
  rw [networksInsert_absent sc cl _ _ _ h]
  simp only [mBind, mPure]
  rw [networksGet_found sc _ _ _ _ (lookupK_insert_self cl.networks _ sc.networkSpec)]
  simp [List.append_assoc]

theorem createOrGetRouter_found (sc : ScopeState) (cl : CloudState) (cs : List CloudCall)
    (network : Network) (r : Router)
    (h : lookupK cl.routers (RegionalKey sc.natRouterSpec.name sc.region) = some r) :
    createOrGetRouter mapCloud network ⟨sc, cl, cs⟩ =
      (.ok r, ⟨sc, cl, cs ++ [.getRouter (RegionalKey sc.natRouterSpec.name sc.region)]⟩) := by
  simp only [createOrGetRouter, mBind, mPure, getScope]
  rw [routersGet_found sc cl cs _ r h]
  rfl

theorem createOrGetRouter_absent (sc : ScopeState) (cl : CloudState) (cs : List CloudCall)
    (network : Network)
    (h : lookupK cl.routers (RegionalKey sc.natRouterSpec.name sc.region) = none) :
    createOrGetRouter mapCloud network ⟨sc, cl, cs⟩ =
      (.ok { sc.natRouterSpec with network := network.selfLink, description := ClusterTagKey sc.name },
       ⟨sc,
        { cl with routers := insertK cl.routers (RegionalKey sc.natRouterSpec.name sc.region) { sc.natRouterSpec with network := network.selfLink, description := ClusterTagKey sc.name } },
        cs ++ [.getRouter (RegionalKey sc.natRouterSpec.name sc.region),
          .insertRouter (RegionalKey sc.natRouterSpec.name sc.region) { sc.natRouterSpec with network := network.selfLink, description := ClusterTagKey sc.name },
          .getRouter (RegionalKey sc.natRouterSpec.name sc.region)]⟩) := by
  simp only [createOrGetRouter, mBind, mPure, getScope]
  rw [routersGet_absent sc cl cs _ h]
  simp only [isNotFound, if_true, mBind, mPure]
  rw [routersInsert_absent sc cl _ _ _ h]
  simp only [mBind, mPure]
  rw [routersGet_found sc _ _ _ _ (lookupK_insert_self cl.routers _ _)]
  simp [List.append_assoc]

/-! ## Subnet reconcile step analysis -/

/-- The stored subnet at a spec's key exists and already covers all of the
spec's secondary-range names. -/
def subnetClosed (cl : CloudState) (region : String) (spec : Subnetwork) : Prop :=
  ∃ s, lookupK cl.subnets (RegionalKey spec.name region) = some s ∧
    rangesClosed s.secondaryIpRanges spec.secondaryIpRanges

/-- Every stored subnet survives (same key) with a superset of its
secondary-range names. -/
def subnetsMono (a b : CloudState) : Prop :=
  ∀ k v, lookupK a.subnets k = some v →
    ∃ w, lookupK b.subnets k = some w ∧
      ∀ n ∈ rangeNames v.secondaryIpRanges, n ∈ rangeNames w.secondaryIpRanges

theorem subnetsMono_refl (a : CloudState) : subnetsMono a a :=
  fun _ v hv => ⟨v, hv, fun _ hn => hn⟩

theorem subnetsMono_trans {a b c : CloudState}
    (h1 : subnetsMono a b) (h2 : subnetsMono b c) : subnetsMono a c := by
  intro k v hv
  obtain ⟨w, hw, hsub⟩ := h1 k v hv
  obtain ⟨u, hu, hsub2⟩ := h2 k w hw
  exact ⟨u, hu, fun n hn => hsub2 n (hsub n hn)⟩

theorem subnetClosed_mono {a b : CloudState} {region : String} {spec : Subnetwork}
    (h : subnetClosed a region spec) (hm : subnetsMono a b) : subnetClosed b region spec := by
  obtain ⟨s, hl, hc⟩ := h
  obtain ⟨w, hw, hsub⟩ := hm _ _ hl
  exact ⟨w, hw, rangesClosed_of_subset _ _ _ hsub hc⟩

theorem createOrPatchSubnetStep_run (sc : ScopeState) (cl : CloudState) (cs : List CloudCall)
    (network : Network) (spec : Subnetwork) :
    (createOrPatchSubnetStep mapCloud network spec ⟨sc, cl, cs⟩).fst = none ∧
    (createOrPatchSubnetStep mapCloud network spec ⟨sc, cl, cs⟩).snd.scope = sc ∧
    (createOrPatchSubnetStep mapCloud network spec ⟨sc, cl, cs⟩).snd.cloud.networks = cl.networks ∧
    (createOrPatchSubnetStep mapCloud network spec ⟨sc, cl, cs⟩).snd.cloud.routers = cl.routers ∧
    (createOrPatchSubnetStep mapCloud network spec ⟨sc, cl, cs⟩).snd.cloud.instances = cl.instances ∧
    (createOrPatchSubnetStep mapCloud network spec ⟨sc, cl, cs⟩).snd.cloud.groups = cl.groups ∧
    subnetClosed (createOrPatchSubnetStep mapCloud network spec ⟨sc, cl, cs⟩).snd.cloud
      sc.region spec ∧
    subnetsMono cl (createOrPatchSubnetStep mapCloud network spec ⟨sc, cl, cs⟩).snd.cloud ∧
    (∃ l, (createOrPatchSubnetStep mapCloud network spec ⟨sc, cl, cs⟩).snd.calls = cs ++ l ∧
      ∀ c ∈ l, c.isSubnetCall = true) := by
  cases hl : lookupK cl.subnets (RegionalKey spec.name sc.region) with
  | some s0 =>
    by_cases hm : mergeRanges s0.secondaryIpRanges spec.secondaryIpRanges = s0.secondaryIpRanges
    · have hrun : createOrPatchSubnetStep mapCloud network spec ⟨sc, cl, cs⟩ =
          (none, ⟨sc, cl, cs ++ [.getSubnetwork (RegionalKey spec.name sc.region)]⟩) := by
        simp only [createOrPatchSubnetStep, mBind, mPure, getScope]
        rw [subnetworksGet_found sc cl cs _ s0 hl]
        simp only [mBind, mPure, hm]
        simp [mPure]
      rw [hrun]
      refine ⟨rfl, rfl, rfl, rfl, rfl, rfl, ?_, subnetsMono_refl cl, [.getSubnetwork (RegionalKey spec.name sc.region)], rfl, ?_⟩
      · exact ⟨s0, hl, (mergeRanges_eq_iff _ _).mp hm⟩
      · intro c hc
        simp at hc
        subst hc
        rfl
    · have hrun : createOrPatchSubnetStep mapCloud network spec ⟨sc, cl, cs⟩ =
          (none, ⟨sc,
            { cl with subnets := insertK cl.subnets (RegionalKey spec.name sc.region) { s0 with secondaryIpRanges := mergeRanges s0.secondaryIpRanges spec.secondaryIpRanges } },
            cs ++ [.getSubnetwork (RegionalKey spec.name sc.region),
              .patchSubnetwork (RegionalKey spec.name sc.region) { s0 with secondaryIpRanges := mergeRanges s0.secondaryIpRanges spec.secondaryIpRanges }]⟩) := by
        simp only [createOrPatchSubnetStep, mBind, mPure, getScope]
        rw [subnetworksGet_found sc cl cs _ s0 hl]
        simp only [mBind, mPure]
        rw [if_pos hm]
        simp only [mBind]
        rw [subnetworksPatch_found sc cl _ _ s0 _ hl]
        simp [List.append_assoc, mPure]
      rw [hrun]
      refine ⟨rfl, rfl, rfl, rfl, rfl, rfl, ?_, ?_, _, rfl, ?_⟩
      · exact ⟨_, lookupK_insert_self _ _ _, rangesClosed_mergeRanges _ _⟩
      · intro k v hv
        by_cases hk : k = RegionalKey spec.name sc.region
        · subst hk
          rw [hl] at hv
          cases hv
          exact ⟨_, lookupK_insert_self _ _ _, rangeNames_mergeRanges_subset _ _⟩
        · exact ⟨v, by rw [lookupK_insert_ne _ _ _ _ hk]; exact hv, fun _ hn => hn⟩
      · intro c hc
        simp at hc
        rcases hc with hc | hc <;> subst hc <;> rfl
  | none =>
    have hrun : createOrPatchSubnetStep mapCloud network spec ⟨sc, cl, cs⟩ =
        (none, ⟨sc,
          { cl with subnets := insertK cl.subnets (RegionalKey spec.name sc.region) { spec with network := network.selfLink, description := ClusterTagKey sc.name } },
          cs ++ [.getSubnetwork (RegionalKey spec.name sc.region),
            .insertSubnetwork (RegionalKey spec.name sc.region) { spec with network := network.selfLink, description := ClusterTagKey sc.name },
            .getSubnetwork (RegionalKey spec.name sc.region)]⟩) := by
      simp only [createOrPatchSubnetStep, mBind, mPure, getScope]
      rw [subnetworksGet_absent sc cl cs _ hl]
      simp only [isNotFound, if_true, mBind, mPure]
      rw [subnetworksInsert_absent sc cl _ _ _ hl]
      simp only [mBind, mPure]
      rw [subnetworksGet_found sc _ _ _ _ (lookupK_insert_self cl.subnets _ _)]
      simp only [mBind, mPure, mergeRanges_self]
      simp [List.append_assoc, mPure]
    rw [hrun]
    refine ⟨rfl, rfl, rfl, rfl, rfl, rfl, ?_, ?_, _, rfl, ?_⟩
    · exact ⟨_, lookupK_insert_self _ _ _, rangesClosed_refl _⟩
    · intro k v hv
      by_cases hk : k = RegionalKey spec.name sc.region
      · subst hk
        rw [hl] at hv
        cases hv
      · exact ⟨v, by rw [lookupK_insert_ne _ _ _ _ hk]; exact hv, fun _ hn => hn⟩
    · intro c hc
      simp at hc
      rcases hc with hc | hc | hc <;> subst hc <;> rfl

theorem createOrPatchSubnetLoop_run (network : Network) :
    ∀ (specs : List Subnetwork) (sc : ScopeState) (cl : CloudState) (cs : List CloudCall),
    (createOrPatchSubnetLoop mapCloud network specs ⟨sc, cl, cs⟩).fst = none ∧
    (createOrPatchSubnetLoop mapCloud network specs ⟨sc, cl, cs⟩).snd.scope = sc ∧
    (createOrPatchSubnetLoop mapCloud network specs ⟨sc, cl, cs⟩).snd.cloud.networks = cl.networks ∧
    (createOrPatchSubnetLoop mapCloud network specs ⟨sc, cl, cs⟩).snd.cloud.routers = cl.routers ∧
    (createOrPatchSubnetLoop mapCloud network specs ⟨sc, cl, cs⟩).snd.cloud.instances = cl.instances ∧
    (createOrPatchSubnetLoop mapCloud network specs ⟨sc, cl, cs⟩).snd.cloud.groups = cl.groups ∧
    (∀ spec ∈ specs,
      subnetClosed (createOrPatchSubnetLoop mapCloud network specs ⟨sc, cl, cs⟩).snd.cloud
        sc.region spec) ∧
    subnetsMono cl (createOrPatchSubnetLoop mapCloud network specs ⟨sc, cl, cs⟩).snd.cloud ∧
    (∃ l, (createOrPatchSubnetLoop mapCloud network specs ⟨sc, cl, cs⟩).snd.calls = cs ++ l ∧
      ∀ c ∈ l, c.isSubnetCall = true) := by
  intro specs
  induction specs with
  | nil =>
    intro sc cl cs
    refine ⟨rfl, rfl, rfl, rfl, rfl, rfl, ?_, subnetsMono_refl cl, [],
      by simp [createOrPatchSubnetLoop, mPure], by simp⟩
    intro spec hspec
    simp at hspec
  | cons spec rest ih =>
    intro sc cl cs
    obtain ⟨h1, h2, h3, h4, h5, h6, h7, h8, l1, hl1, hsub1⟩ :=
      createOrPatchSubnetStep_run sc cl cs network spec
    set T := (createOrPatchSubnetStep mapCloud network spec ⟨sc, cl, cs⟩).snd with hT
    have heta : T = (⟨sc, T.cloud, T.calls⟩ : RState CloudState) := by
      rw [← h2]
    have hloop : createOrPatchSubnetLoop mapCloud network (spec :: rest) ⟨sc, cl, cs⟩ =
        createOrPatchSubnetLoop mapCloud network rest T := by
      simp only [createOrPatchSubnetLoop, mBind, h1]
    rw [hloop, heta]
    obtain ⟨g1, g2, g3, g4, g5, g6, g7, g8, l2, hl2, hsub2⟩ := ih sc T.cloud T.calls
    refine ⟨g1, g2, g3.trans h3, g4.trans h4, g5.trans h5, g6.trans h6, ?_, ?_, ?_⟩
    · intro sp hsp
      rcases List.mem_cons.mp hsp with hsp | hsp
      · subst hsp
        exact subnetClosed_mono h7 g8
      · exact g7 sp hsp
    · exact subnetsMono_trans h8 g8
    · refine ⟨l1 ++ l2, ?_, ?_⟩
      · rw [hl2, hl1, List.append_assoc]
      · intro c hc
        rcases List.mem_append.mp hc with hc | hc
        · exact hsub1 c hc
        · exact hsub2 c hc

theorem createOrPatchSubnet_run (sc : ScopeState) (cl : CloudState) (cs : List CloudCall)
    (network : Network) :
    createOrPatchSubnet mapCloud network ⟨sc, cl, cs⟩ =
      createOrPatchSubnetLoop mapCloud network sc.subnetworksSpec ⟨sc, cl, cs⟩ := by
  simp only [createOrPatchSubnet, mBind, getScope]

/-- The stored network exists, and when self-owned the NAT router exists
too. -/
def netConverged (sc : ScopeState) (cl : CloudState) : Prop :=
  ∃ n, lookupK cl.networks (GlobalKey sc.networkName) = some n ∧
    (n.description = ClusterTagKey sc.name →
      ∃ r, lookupK cl.routers (RegionalKey sc.natRouterSpec.name sc.region) = some r)

/-- Every desired subnet exists and covers its spec's range names. -/
def subnetsConverged (sc : ScopeState) (cl : CloudState) : Prop :=
  ∀ spec ∈ sc.subnetworksSpec, subnetClosed cl sc.region spec

theorem createOrPatchSubnetStep_closed (sc : ScopeState) (cl : CloudState) (cs : List CloudCall)
    (network : Network) (spec : Subnetwork) (h : subnetClosed cl sc.region spec) :
    createOrPatchSubnetStep mapCloud network spec ⟨sc, cl, cs⟩ =
      (none, ⟨sc, cl, cs ++ [.getSubnetwork (RegionalKey spec.name sc.region)]⟩) := by
  obtain ⟨s0, hl, hc⟩ := h
  have hm : mergeRanges s0.secondaryIpRanges spec.secondaryIpRanges = s0.secondaryIpRanges :=
    (mergeRanges_eq_iff _ _).mpr hc
  simp only [createOrPatchSubnetStep, mBind, mPure, getScope]
  rw [subnetworksGet_found sc cl cs _ s0 hl]
  simp only [mBind, mPure, hm]
  simp [mPure]

theorem createOrPatchSubnetLoop_closed (network : Network) :
    ∀ (specs : List Subnetwork) (sc : ScopeState) (cl : CloudState) (cs : List CloudCall),
    (∀ spec ∈ specs, subnetClosed cl sc.region spec) →
    createOrPatchSubnetLoop mapCloud network specs ⟨sc, cl, cs⟩ =
      (none, ⟨sc, cl,
        cs ++ specs.map (fun spec => .getSubnetwork (RegionalKey spec.name sc.region))⟩) := by
  intro specs
  induction specs with
  | nil =>
    intro sc cl cs _
    simp [createOrPatchSubnetLoop, mPure]
  | cons spec rest ih =>
    intro sc cl cs h
    have hstep := createOrPatchSubnetStep_closed sc cl cs network spec
      (h spec (List.mem_cons_self spec rest))
    simp only [createOrPatchSubnetLoop, mBind, hstep]
    have hrest := ih sc cl (cs ++ [.getSubnetwork (RegionalKey spec.name sc.region)])
      (fun sp hsp => h sp (List.mem_cons_of_mem spec hsp))
    rw [hrest]
    simp [List.append_assoc]

theorem createOrGetNetwork_run (sc : ScopeState) (cl : CloudState) (cs : List CloudCall) :
    ∃ n cl2 l,
      createOrGetNetwork mapCloud ⟨sc, cl, cs⟩ = (.ok n, ⟨sc, cl2, cs ++ l⟩) ∧
      lookupK cl2.networks (GlobalKey sc.networkName) = some n ∧
      cl2.routers = cl.routers ∧ cl2.subnets = cl.subnets ∧
      cl2.instances = cl.instances ∧ cl2.groups = cl.groups ∧
      (∀ c ∈ l, c = .getNetwork (GlobalKey sc.networkName) ∨
        c = .insertNetwork (GlobalKey sc.networkName) sc.networkSpec) := by
  cases hl : lookupK cl.networks (GlobalKey sc.networkName) with
  | some n =>
    refine ⟨n, cl, [.getNetwork (GlobalKey sc.networkName)],
      createOrGetNetwork_found sc cl cs n hl, hl, rfl, rfl, rfl, rfl, ?_⟩
    intro c hc
    simp at hc
    subst hc
    exact Or.inl rfl
  | none =>
    refine ⟨sc.networkSpec,
      { cl with networks := insertK cl.networks (GlobalKey sc.networkName) sc.networkSpec },
      [.getNetwork (GlobalKey sc.networkName),
        .insertNetwork (GlobalKey sc.networkName) sc.networkSpec,
        .getNetwork (GlobalKey sc.networkName)],
      createOrGetNetwork_absent sc cl cs hl, lookupK_insert_self _ _ _, rfl, rfl, rfl, rfl, ?_⟩
    intro c hc
    simp at hc
    rcases hc with hc | hc | hc <;> subst hc
    · exact Or.inl rfl
    · exact Or.inr rfl
    · exact Or.inl rfl

theorem createOrGetRouter_run (sc : ScopeState) (cl : CloudState) (cs : List CloudCall)
    (network : Network) :
    ∃ r cl2 l,
      createOrGetRouter mapCloud network ⟨sc, cl, cs⟩ = (.ok r, ⟨sc, cl2, cs ++ l⟩) ∧
      lookupK cl2.routers (RegionalKey sc.natRouterSpec.name sc.region) = some r ∧
      cl2.networks = cl.networks ∧ cl2.subnets = cl.subnets ∧
      cl2.instances = cl.instances ∧ cl2.groups = cl.groups ∧
      (∀ c ∈ l, c = .getRouter (RegionalKey sc.natRouterSpec.name sc.region) ∨
        c = .insertRouter (RegionalKey sc.natRouterSpec.name sc.region) { sc.natRouterSpec with network := network.selfLink, description := ClusterTagKey sc.name }) := by
  cases hl : lookupK cl.routers (RegionalKey sc.natRouterSpec.name sc.region) with
  | some r =>
    refine ⟨r, cl, [.getRouter (RegionalKey sc.natRouterSpec.name sc.region)],
      createOrGetRouter_found sc cl cs network r hl, hl, rfl, rfl, rfl, rfl, ?_⟩
    intro c hc
    simp at hc
    subst hc
    exact Or.inl rfl
  | none =>
    refine ⟨{ sc.natRouterSpec with network := network.selfLink, description := ClusterTagKey sc.name },
      { cl with routers := insertK cl.routers (RegionalKey sc.natRouterSpec.name sc.region) { sc.natRouterSpec with network := network.selfLink, description := ClusterTagKey sc.name } },
      [.getRouter (RegionalKey sc.natRouterSpec.name sc.region),
        .insertRouter (RegionalKey sc.natRouterSpec.name sc.region) { sc.natRouterSpec with network := network.selfLink, description := ClusterTagKey sc.name },
        .getRouter (RegionalKey sc.natRouterSpec.name sc.region)],
      createOrGetRouter_absent sc cl cs network hl, lookupK_insert_self _ _ _,
      rfl, rfl, rfl, rfl, ?_⟩
    intro c hc
    simp at hc
    rcases hc with hc | hc | hc <;> subst hc
    · exact Or.inl rfl
    · exact Or.inr rfl
    · exact Or.inl rfl

theorem networkReconcile_run (sc : ScopeState) (cl : CloudState) (cs : List CloudCall) :
    (networkReconcile mapCloud ⟨sc, cl, cs⟩).fst = none ∧
    outputsOnly sc (networkReconcile mapCloud ⟨sc, cl, cs⟩).snd.scope ∧
    netConverged sc (networkReconcile mapCloud ⟨sc, cl, cs⟩).snd.cloud ∧
    subnetsConverged sc (networkReconcile mapCloud ⟨sc, cl, cs⟩).snd.cloud ∧
    (networkReconcile mapCloud ⟨sc, cl, cs⟩).snd.cloud.instances = cl.instances ∧
    (networkReconcile mapCloud ⟨sc, cl, cs⟩).snd.cloud.groups = cl.groups := by
  obtain ⟨n, cl2, l1, hrun1, hn, hr2, hs2, hi2, hg2, hc1⟩ := createOrGetNetwork_run sc cl cs
  by_cases hd : n.description = ClusterTagKey sc.name
  · obtain ⟨r, cl3, l2, hrun2, hrl, hn3, hs3, hi3, hg3, hc2⟩ :=
      createOrGetRouter_run sc cl2 (cs ++ l1) n
    have hmain : networkReconcile mapCloud ⟨sc, cl, cs⟩ =
        createOrPatchSubnetLoop mapCloud n sc.subnetworksSpec
          ⟨{ sc with netRouter := some r.selfLink, netSelfLink := some n.selfLink }, cl3,
            cs ++ l1 ++ l2⟩ := by
      simp only [networkReconcile, mBind, mPure, getScope, hrun1]
      rw [if_pos hd]
      simp only [hrun2, mBind, mPure, modScope]
      simp only [createOrPatchSubnet, mBind, getScope]
    obtain ⟨g1, g2, g3, g4, g5, g6, g7, g8, l3, hl3, hsub3⟩ :=
      createOrPatchSubnetLoop_run n sc.subnetworksSpec
        { sc with netRouter := some r.selfLink, netSelfLink := some n.selfLink } cl3
        (cs ++ l1 ++ l2)
    rw [hmain]
    refine ⟨g1, ?_, ?_, ?_, g5.trans (hi3.trans hi2), g6.trans (hg3.trans hg2)⟩
    · rw [g2]
      simp [outputsOnly]
    · refine ⟨n, ?_, fun _ => ⟨r, ?_⟩⟩
      · rw [g3, hn3]
        exact hn
      · rw [g4]
        exact hrl
    · intro spec hspec
      exact g7 spec hspec
  · have hmain : networkReconcile mapCloud ⟨sc, cl, cs⟩ =
        createOrPatchSubnetLoop mapCloud n sc.subnetworksSpec
          ⟨{ sc with netSelfLink := some n.selfLink }, cl2, cs ++ l1⟩ := by
      simp only [networkReconcile, mBind, mPure, getScope, hrun1]
      rw [if_neg hd]
      simp only [mBind, mPure, modScope]
      simp only [createOrPatchSubnet, mBind, getScope]
    obtain ⟨g1, g2, g3, g4, g5, g6, g7, g8, l3, hl3, hsub3⟩ :=
      createOrPatchSubnetLoop_run n sc.subnetworksSpec
        { sc with netSelfLink := some n.selfLink } cl2 (cs ++ l1)
    rw [hmain]
    refine ⟨g1, ?_, ?_, ?_, g5.trans hi2, g6.trans hg2⟩
    · rw [g2]
      simp [outputsOnly]
    · refine ⟨n, ?_, fun hdd => absurd hdd hd⟩
      rw [g3]
      exact hn
    · intro spec hspec
      exact g7 spec hspec

theorem networkReconcile_closed (sc : ScopeState) (cl : CloudState) (cs : List CloudCall)
    (h1 : netConverged sc cl) (h2 : subnetsConverged sc cl) :
    (networkReconcile mapCloud ⟨sc, cl, cs⟩).fst = none ∧
    (networkReconcile mapCloud ⟨sc, cl, cs⟩).snd.cloud = cl ∧
    outputsOnly sc (networkReconcile mapCloud ⟨sc, cl, cs⟩).snd.scope ∧
    (∃ l, (networkReconcile mapCloud ⟨sc, cl, cs⟩).snd.calls = cs ++ l ∧
      ∀ c ∈ l, c.isMutation = false) := by
  obtain ⟨n, hn, hrimp⟩ := h1
  by_cases hd : n.description = ClusterTagKey sc.name
  · obtain ⟨r, hr⟩ := hrimp hd
    have hmain : networkReconcile mapCloud ⟨sc, cl, cs⟩ =
        createOrPatchSubnetLoop mapCloud n sc.subnetworksSpec
          ⟨{ sc with netRouter := some r.selfLink, netSelfLink := some n.selfLink }, cl,
            cs ++ [.getNetwork (GlobalKey sc.networkName),
              .getRouter (RegionalKey sc.natRouterSpec.name sc.region)]⟩ := by
      simp only [networkReconcile, mBind, mPure, getScope]
      rw [createOrGetNetwork_found sc cl cs n hn]
      simp only [mBind, mPure, getScope]
      rw [if_pos hd]
      simp only [mBind, mPure]
      rw [createOrGetRouter_found sc cl _ n r hr]
      simp only [mBind, mPure, modScope]
      simp only [createOrPatchSubnet, mBind, getScope]
      simp [List.append_assoc]
    have hloop := createOrPatchSubnetLoop_closed n sc.subnetworksSpec
      { sc with netRouter := some r.selfLink, netSelfLink := some n.selfLink } cl
      (cs ++ [.getNetwork (GlobalKey sc.networkName),
        .getRouter (RegionalKey sc.natRouterSpec.name sc.region)]) h2
    rw [hmain, hloop]
    refine ⟨rfl, rfl, by simp [outputsOnly], ?_⟩
    refine ⟨[.getNetwork (GlobalKey sc.networkName),
      .getRouter (RegionalKey sc.natRouterSpec.name sc.region)] ++
      sc.subnetworksSpec.map (fun spec => .getSubnetwork (RegionalKey spec.name sc.region)), ?_, ?_⟩
    · simp [List.append_assoc]
    · intro c hc
      rcases List.mem_append.mp hc with hc | hc
      · simp at hc
        rcases hc with hc | hc <;> subst hc <;> rfl
      · obtain ⟨spec, _, hspec⟩ := List.mem_map.mp hc
        subst hspec
        rfl
  · have hmain : networkReconcile mapCloud ⟨sc, cl, cs⟩ =
        createOrPatchSubnetLoop mapCloud n sc.subnetworksSpec
          ⟨{ sc with netSelfLink := some n.selfLink }, cl,
            cs ++ [.getNetwork (GlobalKey sc.networkName)]⟩ := by
      simp only [networkReconcile, mBind, mPure, getScope]
      rw [createOrGetNetwork_found sc cl cs n hn]
      simp only [mBind, mPure, getScope]
      rw [if_neg hd]
      simp only [mBind, mPure, modScope]
      simp only [createOrPatchSubnet, mBind, getScope]
    have hloop := createOrPatchSubnetLoop_closed n sc.subnetworksSpec
      { sc with netSelfLink := some n.selfLink } cl
      (cs ++ [.getNetwork (GlobalKey sc.networkName)]) h2
    rw [hmain, hloop]
    refine ⟨rfl, rfl, by simp [outputsOnly], ?_⟩
    refine ⟨[.getNetwork (GlobalKey sc.networkName)] ++
      sc.subnetworksSpec.map (fun spec => .getSubnetwork (RegionalKey spec.name sc.region)), ?_, ?_⟩
    · simp [List.append_assoc]
    · intro c hc
      rcases List.mem_append.mp hc with hc | hc
      · simp at hc
        subst hc
        rfl
      · obtain ⟨spec, _, hspec⟩ := List.mem_map.mp hc
        subst hspec
        rfl

/-! ## Instance reconcile analysis -/

/-- The instance is stored, and for a control-plane machine the group
exists and the registration condition is already settled (member of the
RUNNING listing, or not RUNNING). -/
def instConverged (sc : ScopeState) (cl : CloudState) : Prop :=
  ∃ i, lookupK cl.instances (ZonalKey sc.instanceSpec.name sc.zone) = some i ∧
    (sc.isControlPlane = true →
      ∃ members, lookupK cl.groups (ZonalKey sc.controlPlaneGroupName sc.zone) = some members ∧
        (!((runningOf cl members).contains i.selfLink) && i.status == instanceStatusRunning)
          = false)

theorem listGroupInstances_absent (sc : ScopeState) (cl : CloudState) (cs : List CloudCall)
    (k : Key) (h : lookupK cl.groups k = none) :
    callListGroupInstances mapCloud k instanceStatusRunning ⟨sc, cl, cs⟩ =
      (.error .notFound, ⟨sc, cl, cs ++ [.listGroupInstances k instanceStatusRunning]⟩) := by
  simp only [callListGroupInstances, mBind, emit, liftCloud, mapCloud, h]

/-- The prepared instance spec: the scope's spec with the user-data
metadata item appended. -/
def preparedInstanceSpec (sc : ScopeState) (bd : String) : Instance :=
  { sc.instanceSpec with metadataItems :=
      sc.instanceSpec.metadataItems ++ [{ key := "user-data", value := bd }] }

theorem createOrGetInstance_found (sc : ScopeState) (cl : CloudState) (cs : List CloudCall)
    (bd : String) (i : Instance) (hb : sc.bootstrapData = .ok bd)
    (hi : lookupK cl.instances (ZonalKey sc.instanceSpec.name sc.zone) = some i) :
    createOrGetInstance mapCloud ⟨sc, cl, cs⟩ =
      (.ok i, ⟨sc, cl, cs ++ [.getInstance (ZonalKey sc.instanceSpec.name sc.zone)]⟩) := by
  simp only [createOrGetInstance, mBind, mPure, getScope, hb]
  rw [instancesGet_found sc cl cs _ i hi]
  rfl

theorem createOrGetInstance_absent (sc : ScopeState) (cl : CloudState) (cs : List CloudCall)
    (bd : String) (hb : sc.bootstrapData = .ok bd)
    (hi : lookupK cl.instances (ZonalKey sc.instanceSpec.name sc.zone) = none) :
    createOrGetInstance mapCloud ⟨sc, cl, cs⟩ =
      (.ok (preparedInstanceSpec sc bd),
       ⟨sc,
        { cl with instances := insertK cl.instances (ZonalKey sc.instanceSpec.name sc.zone) (preparedInstanceSpec sc bd) },
        cs ++ [.getInstance (ZonalKey sc.instanceSpec.name sc.zone),
          .insertInstance (ZonalKey sc.instanceSpec.name sc.zone) (preparedInstanceSpec sc bd),
          .getInstance (ZonalKey sc.instanceSpec.name sc.zone)]⟩) := by
  simp only [createOrGetInstance, mBind, mPure, getScope, hb, preparedInstanceSpec]
  rw [instancesGet_absent sc cl cs _ hi]
  simp only [isNotFound, if_true, mBind, mPure]
  rw [instancesInsert_absent sc cl _ _ _ hi]
  simp only [mBind, mPure]
  rw [instancesGet_found sc _ _ _ _ (lookupK_insert_self cl.instances _ _)]
  simp [List.append_assoc]

theorem createOrGetInstance_err (sc : ScopeState) (cl : CloudState) (cs : List CloudCall)
    (e : GErr) (hb : sc.bootstrapData = .error e) :
    createOrGetInstance mapCloud ⟨sc, cl, cs⟩ = (.error e, ⟨sc, cl, cs⟩) := by
  simp only [createOrGetInstance, mBind, mPure, getScope, hb]

theorem createOrGetInstance_run (sc : ScopeState) (cl : CloudState) (cs : List CloudCall)
    (bd : String) (hb : sc.bootstrapData = .ok bd) :
    ∃ i cl2 l,
      createOrGetInstance mapCloud ⟨sc, cl, cs⟩ = (.ok i, ⟨sc, cl2, cs ++ l⟩) ∧
      lookupK cl2.instances (ZonalKey sc.instanceSpec.name sc.zone) = some i ∧
      cl2.networks = cl.networks ∧ cl2.routers = cl.routers ∧ cl2.subnets = cl.subnets ∧
      cl2.groups = cl.groups ∧
      (∀ c ∈ l, c = .getInstance (ZonalKey sc.instanceSpec.name sc.zone) ∨
        c = .insertInstance (ZonalKey sc.instanceSpec.name sc.zone) (preparedInstanceSpec sc bd)) := by
  cases hi : lookupK cl.instances (ZonalKey sc.instanceSpec.name sc.zone) with
  | some i =>
    refine ⟨i, cl, [.getInstance (ZonalKey sc.instanceSpec.name sc.zone)],
      createOrGetInstance_found sc cl cs bd i hb hi, hi, rfl, rfl, rfl, rfl, ?_⟩
    intro c hc
    simp at hc
    subst hc
    exact Or.inl rfl
  | none =>
    refine ⟨preparedInstanceSpec sc bd,
      { cl with instances := insertK cl.instances (ZonalKey sc.instanceSpec.name sc.zone) (preparedInstanceSpec sc bd) },
      [.getInstance (ZonalKey sc.instanceSpec.name sc.zone),
        .insertInstance (ZonalKey sc.instanceSpec.name sc.zone) (preparedInstanceSpec sc bd),
        .getInstance (ZonalKey sc.instanceSpec.name sc.zone)],
      createOrGetInstance_absent sc cl cs bd hb hi, lookupK_insert_self _ _ _,
      rfl, rfl, rfl, rfl, ?_⟩
    intro c hc
    simp at hc
    rcases hc with hc | hc | hc <;> subst hc
    · exact Or.inl rfl
    · exact Or.inr rfl
    · exact Or.inl rfl

theorem registerControlPlaneInstance_closed (sc : ScopeState) (cl : CloudState)
    (cs : List CloudCall) (inst : Instance) (members : List String)
    (hg : lookupK cl.groups (ZonalKey sc.controlPlaneGroupName sc.zone) = some members)
    (hcond : (!((runningOf cl members).contains inst.selfLink)
      && inst.status == instanceStatusRunning) = false) :
    registerControlPlaneInstance mapCloud inst ⟨sc, cl, cs⟩ =
      (none, ⟨sc, cl, cs ++ [.listGroupInstances (ZonalKey sc.controlPlaneGroupName sc.zone)
        instanceStatusRunning]⟩) := by
  simp only [registerControlPlaneInstance, mBind, mPure, getScope]
  rw [listGroupInstances_found sc cl cs _ members hg]
  simp only [mBind, mPure, hcond]
  simp [mPure]

theorem registerControlPlaneInstance_add (sc : ScopeState) (cl : CloudState)
    (cs : List CloudCall) (inst : Instance) (members : List String)
    (hg : lookupK cl.groups (ZonalKey sc.controlPlaneGroupName sc.zone) = some members)
    (hcond : (!((runningOf cl members).contains inst.selfLink)
      && inst.status == instanceStatusRunning) = true) :
    registerControlPlaneInstance mapCloud inst ⟨sc, cl, cs⟩ =
      (none, ⟨sc,
        { cl with groups := insertK cl.groups (ZonalKey sc.controlPlaneGroupName sc.zone) (members ++ [inst.selfLink]) },
        cs ++ [.listGroupInstances (ZonalKey sc.controlPlaneGroupName sc.zone) instanceStatusRunning,
          .addInstances (ZonalKey sc.controlPlaneGroupName sc.zone) inst.selfLink]⟩) := by
  simp only [registerControlPlaneInstance, mBind, mPure, getScope]
  rw [listGroupInstances_found sc cl cs _ members hg]
  simp only [mBind, mPure, hcond]
  simp only [if_true]
  rw [addInstances_found sc cl _ _ inst.selfLink members hg]
  simp [List.append_assoc]

theorem runningLink_of_stored (cl : CloudState) (k : Key) (inst : Instance)
    (hk : lookupK cl.instances k = some inst)
    (hr : (inst.status == instanceStatusRunning) = true) :
    runningLink cl inst.selfLink = true := by
  unfold runningLink
  rw [List.any_eq_true]
  refine ⟨(k, inst), lookupK_mem _ _ _ hk, ?_⟩
  simp [hr]

theorem registerControlPlaneInstance_run (sc : ScopeState) (cl : CloudState)
    (cs : List CloudCall) (inst : Instance) (members : List String) (k0 : Key)
    (hg : lookupK cl.groups (ZonalKey sc.controlPlaneGroupName sc.zone) = some members)
    (hstored : lookupK cl.instances k0 = some inst) :
    (registerControlPlaneInstance mapCloud inst ⟨sc, cl, cs⟩).fst = none ∧
    (registerControlPlaneInstance mapCloud inst ⟨sc, cl, cs⟩).snd.scope = sc ∧
    (registerControlPlaneInstance mapCloud inst ⟨sc, cl, cs⟩).snd.cloud.networks = cl.networks ∧
    (registerControlPlaneInstance mapCloud inst ⟨sc, cl, cs⟩).snd.cloud.routers = cl.routers ∧
    (registerControlPlaneInstance mapCloud inst ⟨sc, cl, cs⟩).snd.cloud.subnets = cl.subnets ∧
    (registerControlPlaneInstance mapCloud inst ⟨sc, cl, cs⟩).snd.cloud.instances = cl.instances ∧
    (∃ members2,
      lookupK (registerControlPlaneInstance mapCloud inst ⟨sc, cl, cs⟩).snd.cloud.groups
        (ZonalKey sc.controlPlaneGroupName sc.zone) = some members2 ∧
      (!((runningOf (registerControlPlaneInstance mapCloud inst ⟨sc, cl, cs⟩).snd.cloud
          members2).contains inst.selfLink) && inst.status == instanceStatusRunning) = false) := by
  cases hcond : (!((runningOf cl members).contains inst.selfLink)
      && inst.status == instanceStatusRunning) with
  | false =>
    rw [registerControlPlaneInstance_closed sc cl cs inst members hg hcond]
    exact ⟨rfl, rfl, rfl, rfl, rfl, rfl, members, hg, hcond⟩
  | true =>
    have h2 : (inst.status == instanceStatusRunning) = true := by
      rcases Bool.and_eq_true_iff.mp hcond with ⟨_, h2⟩
      exact h2
    rw [registerControlPlaneInstance_add sc cl cs inst members hg hcond]
    refine ⟨rfl, rfl, rfl, rfl, rfl, rfl, members ++ [inst.selfLink],
      lookupK_insert_self _ _ _, ?_⟩
    have hrl : runningLink cl inst.selfLink = true :=
      runningLink_of_stored cl k0 inst hstored h2
    have hmem : inst.selfLink ∈ runningOf
        { cl with groups := insertK cl.groups (ZonalKey sc.controlPlaneGroupName sc.zone) (members ++ [inst.selfLink]) }
        (members ++ [inst.selfLink]) := by
      unfold runningOf
      rw [List.mem_filter]
      refine ⟨by simp, ?_⟩
      show runningLink _ inst.selfLink = true
      exact hrl
    have hcont : ((runningOf
        { cl with groups := insertK cl.groups (ZonalKey sc.controlPlaneGroupName sc.zone) (members ++ [inst.selfLink]) }
        (members ++ [inst.selfLink])).contains inst.selfLink) = true := by
      simpa using hmem
    rw [hcont]
    simp

/-- The scope after the instance reconciler records provider ID, node
addresses and status. -/
@[reducible] def scopeWithInstanceOutputs (sc : ScopeState) (i : Instance) : ScopeState :=
  { sc with providerID := some i.selfLink, addresses := computeAddresses i.networkInterfaces, instanceStatus := some i.status }

theorem registerControlPlaneInstance_groupMissing (sc : ScopeState) (cl : CloudState)
    (cs : List CloudCall) (inst : Instance)
    (hg : lookupK cl.groups (ZonalKey sc.controlPlaneGroupName sc.zone) = none) :
    registerControlPlaneInstance mapCloud inst ⟨sc, cl, cs⟩ =
      (some .notFound, ⟨sc, cl, cs ++ [.listGroupInstances
        (ZonalKey sc.controlPlaneGroupName sc.zone) instanceStatusRunning]⟩) := by
  simp only [registerControlPlaneInstance, mBind, mPure, getScope]
  rw [listGroupInstances_absent sc cl cs _ hg]
  rfl

theorem instanceReconcile_run (sc : ScopeState) (cl : CloudState) (cs : List CloudCall)
    (hsucc : (instanceReconcile mapCloud ⟨sc, cl, cs⟩).fst = none) :
    outputsOnly sc (instanceReconcile mapCloud ⟨sc, cl, cs⟩).snd.scope ∧
    (instanceReconcile mapCloud ⟨sc, cl, cs⟩).snd.cloud.networks = cl.networks ∧
    (instanceReconcile mapCloud ⟨sc, cl, cs⟩).snd.cloud.routers = cl.routers ∧
    (instanceReconcile mapCloud ⟨sc, cl, cs⟩).snd.cloud.subnets = cl.subnets ∧
    instConverged sc (instanceReconcile mapCloud ⟨sc, cl, cs⟩).snd.cloud ∧
    (∃ bd, sc.bootstrapData = .ok bd) := by
  cases hb : sc.bootstrapData with
  | error e =>
    have hmain : instanceReconcile mapCloud ⟨sc, cl, cs⟩ = (some e, ⟨sc, cl, cs⟩) := by
      simp only [instanceReconcile, mBind, mPure]
      rw [createOrGetInstance_err sc cl cs e hb]
      rfl
    rw [hmain] at hsucc
    exact absurd hsucc (by simp)
  | ok bd =>
    obtain ⟨i, cl2, l, hrun, hi, hn2, hr2, hs2, hg2, _⟩ := createOrGetInstance_run sc cl cs bd hb
    cases hcp : sc.isControlPlane with
    | false =>
      have hmain : instanceReconcile mapCloud ⟨sc, cl, cs⟩ =
          (none, ⟨scopeWithInstanceOutputs sc i, cl2, cs ++ l⟩) := by
        simp only [instanceReconcile, mBind, mPure, getScope, modScope, hrun,
          scopeWithInstanceOutputs]
        simp [hcp, mPure, mBind, modScope, getScope]
      rw [hmain]
      refine ⟨by simp [outputsOnly, scopeWithInstanceOutputs], hn2, hr2, hs2, ⟨i, hi, ?_⟩, bd, rfl⟩
      intro hc
      rw [hcp] at hc
      exact absurd hc (by simp)
    | true =>
      cases hgq : lookupK cl2.groups (ZonalKey sc.controlPlaneGroupName sc.zone) with
      | none =>
        have hmain : instanceReconcile mapCloud ⟨sc, cl, cs⟩ =
            registerControlPlaneInstance mapCloud i
              ⟨scopeWithInstanceOutputs sc i, cl2, cs ++ l⟩ := by
          simp only [instanceReconcile, mBind, mPure, getScope, modScope, hrun,
            scopeWithInstanceOutputs]
          simp [hcp]
        have hfst : (instanceReconcile mapCloud ⟨sc, cl, cs⟩).fst = some .notFound := by
          rw [hmain, registerControlPlaneInstance_groupMissing
            (scopeWithInstanceOutputs sc i) cl2 (cs ++ l) i hgq]
        rw [hfst] at hsucc
        exact absurd hsucc (by simp)
      | some members =>
        have hmain : instanceReconcile mapCloud ⟨sc, cl, cs⟩ =
            registerControlPlaneInstance mapCloud i
              ⟨scopeWithInstanceOutputs sc i, cl2, cs ++ l⟩ := by
          simp only [instanceReconcile, mBind, mPure, getScope, modScope, hrun,
            scopeWithInstanceOutputs]
          simp [hcp]
        obtain ⟨g1, g2, g3, g4, g5, g6, members2, hm2, hcond2⟩ :=
          registerControlPlaneInstance_run (scopeWithInstanceOutputs sc i) cl2 (cs ++ l) i
            members (ZonalKey sc.instanceSpec.name sc.zone) hgq hi
        rw [hmain]
        refine ⟨?_, g3.trans hn2, g4.trans hr2, g5.trans hs2, ?_, bd, rfl⟩
        · rw [g2]
          simp [outputsOnly, scopeWithInstanceOutputs]
        · refine ⟨i, ?_, fun _ => ⟨members2, hm2, hcond2⟩⟩
          rw [g6]
          exact hi

theorem instanceReconcile_closed (sc : ScopeState) (cl : CloudState) (cs : List CloudCall)
    (bd : String) (hb : sc.bootstrapData = .ok bd) (hic : instConverged sc cl) :
    (instanceReconcile mapCloud ⟨sc, cl, cs⟩).fst = none ∧
    (instanceReconcile mapCloud ⟨sc, cl, cs⟩).snd.cloud = cl ∧
    outputsOnly sc (instanceReconcile mapCloud ⟨sc, cl, cs⟩).snd.scope ∧
    (∃ l, (instanceReconcile mapCloud ⟨sc, cl, cs⟩).snd.calls = cs ++ l ∧
      ∀ c ∈ l, c.isMutation = false) := by
  obtain ⟨i, hi, himp⟩ := hic
  cases hcp : sc.isControlPlane with
  | false =>
    have hmain : instanceReconcile mapCloud ⟨sc, cl, cs⟩ =
        (none, ⟨scopeWithInstanceOutputs sc i, cl,
          cs ++ [.getInstance (ZonalKey sc.instanceSpec.name sc.zone)]⟩) := by
      simp only [instanceReconcile, mBind, mPure, getScope, modScope,
        scopeWithInstanceOutputs]
      rw [createOrGetInstance_found sc cl cs bd i hb hi]
      simp [hcp, mPure, mBind, modScope, getScope]
    rw [hmain]
    refine ⟨rfl, rfl, by simp [outputsOnly, scopeWithInstanceOutputs],
      [.getInstance (ZonalKey sc.instanceSpec.name sc.zone)], rfl, ?_⟩
    intro c hc
    simp at hc
    subst hc
    rfl
  | true =>
    obtain ⟨members, hm, hcond⟩ := himp hcp
    have hmain : instanceReconcile mapCloud ⟨sc, cl, cs⟩ =
        registerControlPlaneInstance mapCloud i ⟨scopeWithInstanceOutputs sc i, cl,
          cs ++ [.getInstance (ZonalKey sc.instanceSpec.name sc.zone)]⟩ := by
      simp only [instanceReconcile, mBind, mPure, getScope, modScope,
        scopeWithInstanceOutputs]
      rw [createOrGetInstance_found sc cl cs bd i hb hi]
      simp [hcp, mPure, mBind, modScope, getScope]
    rw [hmain, registerControlPlaneInstance_closed (scopeWithInstanceOutputs sc i) cl _
      i members hm hcond]
    refine ⟨rfl, rfl, by simp [outputsOnly, scopeWithInstanceOutputs],
      [.getInstance (ZonalKey sc.instanceSpec.name sc.zone),
        .listGroupInstances (ZonalKey sc.controlPlaneGroupName sc.zone) instanceStatusRunning],
      by simp, ?_⟩
    intro c hc
    simp at hc
    rcases hc with hc | hc <;> subst hc <;> rfl

/-! ## Transport lemmas and whole-system composition -/

theorem netConverged_outputs {sc sc2 : ScopeState} {cl : CloudState}
    (ho : outputsOnly sc sc2) (h : netConverged sc cl) : netConverged sc2 cl := by
  obtain ⟨e1, e2, e3, e4, e5, e6, e7, e8, e9, e10, e11⟩ := ho
  unfold netConverged at h ⊢
  rw [e4, e1, e6, e2]
  exact h

theorem subnetsConverged_outputs {sc sc2 : ScopeState} {cl : CloudState}
    (ho : outputsOnly sc sc2) (h : subnetsConverged sc cl) : subnetsConverged sc2 cl := by
  obtain ⟨e1, e2, e3, e4, e5, e6, e7, e8, e9, e10, e11⟩ := ho
  unfold subnetsConverged at h ⊢
  rw [e7, e2]
  exact h

theorem instConverged_outputs {sc sc2 : ScopeState} {cl : CloudState}
    (ho : outputsOnly sc sc2) (h : instConverged sc cl) : instConverged sc2 cl := by
  obtain ⟨e1, e2, e3, e4, e5, e6, e7, e8, e9, e10, e11⟩ := ho
  unfold instConverged at h ⊢
  rw [e8, e3, e10, e9]
  exact h

theorem netConverged_maps {sc : ScopeState} {cl cl2 : CloudState}
    (hn : cl2.networks = cl.networks) (hr : cl2.routers = cl.routers)
    (h : netConverged sc cl) : netConverged sc cl2 := by
  unfold netConverged at h ⊢
  rw [hn, hr]
  exact h

theorem subnetsConverged_maps {sc : ScopeState} {cl cl2 : CloudState}
    (hs : cl2.subnets = cl.subnets) (h : subnetsConverged sc cl) : subnetsConverged sc cl2 := by
  intro spec hspec
  obtain ⟨s, hl, hc⟩ := h spec hspec
  refine ⟨s, ?_, hc⟩
  rw [show cl2.subnets = cl.subnets from hs]
  exact hl

theorem runningOf_eq {cl cl2 : CloudState} (hi : cl2.instances = cl.instances) :
    runningOf cl2 = runningOf cl := by
  funext members
  unfold runningOf runningLink
  rw [hi]

theorem instConverged_maps {sc : ScopeState} {cl cl2 : CloudState}
    (hi : cl2.instances = cl.instances) (hg : cl2.groups = cl.groups)
    (h : instConverged sc cl) : instConverged sc cl2 := by
  unfold instConverged at h ⊢
  rw [hi, hg, runningOf_eq hi]
  exact h

theorem systemReconcile_run (sc : ScopeState) (cl : CloudState) (cs : List CloudCall)
    (hsucc : (systemReconcile mapCloud ⟨sc, cl, cs⟩).fst = none) :
    outputsOnly sc (systemReconcile mapCloud ⟨sc, cl, cs⟩).snd.scope ∧
    netConverged (systemReconcile mapCloud ⟨sc, cl, cs⟩).snd.scope
      (systemReconcile mapCloud ⟨sc, cl, cs⟩).snd.cloud ∧
    subnetsConverged (systemReconcile mapCloud ⟨sc, cl, cs⟩).snd.scope
      (systemReconcile mapCloud ⟨sc, cl, cs⟩).snd.cloud ∧
    instConverged (systemReconcile mapCloud ⟨sc, cl, cs⟩).snd.scope
      (systemReconcile mapCloud ⟨sc, cl, cs⟩).snd.cloud ∧
    (∃ bd, (systemReconcile mapCloud ⟨sc, cl, cs⟩).snd.scope.bootstrapData = .ok bd) := by
  obtain ⟨hn1, hno, hnc, hns, hni, hng⟩ := networkReconcile_run sc cl cs
  have h0 : systemReconcile mapCloud ⟨sc, cl, cs⟩ =
      instanceReconcile mapCloud (networkReconcile mapCloud ⟨sc, cl, cs⟩).snd := by
    simp only [systemReconcile, mBind, hn1]
  rw [h0] at hsucc ⊢
  have hsucc2 : (instanceReconcile mapCloud
      ⟨(networkReconcile mapCloud ⟨sc, cl, cs⟩).snd.scope,
        (networkReconcile mapCloud ⟨sc, cl, cs⟩).snd.cloud,
        (networkReconcile mapCloud ⟨sc, cl, cs⟩).snd.calls⟩).fst = none := hsucc
  obtain ⟨gio, gn, gr, gs, gic, gbd⟩ := instanceReconcile_run
    (networkReconcile mapCloud ⟨sc, cl, cs⟩).snd.scope
    (networkReconcile mapCloud ⟨sc, cl, cs⟩).snd.cloud
    (networkReconcile mapCloud ⟨sc, cl, cs⟩).snd.calls hsucc2
  refine ⟨outputsOnly_trans hno gio, ?_, ?_, ?_, ?_⟩
  · exact netConverged_outputs gio (netConverged_maps gn gr
      (netConverged_outputs hno hnc))
  · exact subnetsConverged_outputs gio (subnetsConverged_maps gs
      (subnetsConverged_outputs hno hns))
  · exact instConverged_outputs gio gic
  · obtain ⟨bd, hbd⟩ := gbd
    obtain ⟨f1, f2, f3, f4, f5, f6, f7, f8, f9, f10, f11⟩ := gio
    exact ⟨bd, by rw [f11]; exact hbd⟩

theorem systemReconcile_closed (sc : ScopeState) (cl : CloudState) (cs : List CloudCall)
    (h1 : netConverged sc cl) (h2 : subnetsConverged sc cl) (h3 : instConverged sc cl)
    (hb : ∃ bd, sc.bootstrapData = .ok bd) :
    (systemReconcile mapCloud ⟨sc, cl, cs⟩).fst = none ∧
    (systemReconcile mapCloud ⟨sc, cl, cs⟩).snd.cloud = cl ∧
    (∃ l, (systemReconcile mapCloud ⟨sc, cl, cs⟩).snd.calls = cs ++ l ∧
      ∀ c ∈ l, c.isMutation = false) := by
  obtain ⟨k1, k2, k3, k4⟩ := networkReconcile_closed sc cl cs h1 h2
  have h0 : systemReconcile mapCloud ⟨sc, cl, cs⟩ =
      instanceReconcile mapCloud (networkReconcile mapCloud ⟨sc, cl, cs⟩).snd := by
    simp only [systemReconcile, mBind, k1]
  obtain ⟨bd, hbd⟩ := hb
  have hbd2 : (networkReconcile mapCloud ⟨sc, cl, cs⟩).snd.scope.bootstrapData = .ok bd := by
    obtain ⟨f1, f2, f3, f4, f5, f6, f7, f8, f9, f10, f11⟩ := k3
    rw [f11]
    exact hbd
  have hic2 : instConverged (networkReconcile mapCloud ⟨sc, cl, cs⟩).snd.scope
      (networkReconcile mapCloud ⟨sc, cl, cs⟩).snd.cloud := by
    rw [k2]
    exact instConverged_outputs k3 h3
  obtain ⟨m1, m2, m3, m4⟩ := instanceReconcile_closed
    (networkReconcile mapCloud ⟨sc, cl, cs⟩).snd.scope
    (networkReconcile mapCloud ⟨sc, cl, cs⟩).snd.cloud
    (networkReconcile mapCloud ⟨sc, cl, cs⟩).snd.calls bd hbd2 hic2
  rw [h0]
  refine ⟨m1, ?_, ?_⟩
  · rw [m2]
    exact k2
  · obtain ⟨l1, hl1, hro1⟩ := k4
    obtain ⟨l2, hl2, hro2⟩ := m4
    refine ⟨l1 ++ l2, ?_, ?_⟩
    · rw [hl2, hl1, List.append_assoc]
    · intro c hc
      rcases List.mem_append.mp hc with hc | hc
      · exact hro1 c hc
      · exact hro2 c hc

/-! ## Subnet delete step analysis -/

theorem deleteStep_absent (sc : ScopeState) (cl : CloudState) (cs : List CloudCall)
    (spec : Subnetwork) (hl : lookupK cl.subnets (RegionalKey spec.name sc.region) = none) :
    deleteOrPatchSubnetworkStep mapCloud spec ⟨sc, cl, cs⟩ =
      (some .notFound, ⟨sc, cl, cs ++ [.getSubnetwork (RegionalKey spec.name sc.region)]⟩) := by
  simp only [deleteOrPatchSubnetworkStep, mBind, mPure, getScope]
  rw [subnetworksGet_absent sc cl cs _ hl]
  rfl

theorem deleteStep_owned (sc : ScopeState) (cl : CloudState) (cs : List CloudCall)
    (spec s0 : Subnetwork) (hl : lookupK cl.subnets (RegionalKey spec.name sc.region) = some s0)
    (hd : s0.description = ClusterTagKey sc.name) :
    deleteOrPatchSubnetworkStep mapCloud spec ⟨sc, cl, cs⟩ =
      (none, ⟨sc, { cl with subnets := removeK cl.subnets (RegionalKey spec.name sc.region) },
        cs ++ [.getSubnetwork (RegionalKey spec.name sc.region),
          .deleteSubnetwork (RegionalKey spec.name sc.region)]⟩) := by
  simp only [deleteOrPatchSubnetworkStep, mBind, mPure, getScope]
  rw [subnetworksGet_found sc cl cs _ s0 hl]
  simp only [mBind, mPure]
  rw [if_pos hd]
  simp only [mBind, mPure]
  rw [subnetworksDelete_found sc cl _ _ s0 hl]
  simp [List.append_assoc, mPure]

theorem deleteStep_foreign_patch (sc : ScopeState) (cl : CloudState) (cs : List CloudCall)
    (spec s0 : Subnetwork) (hl : lookupK cl.subnets (RegionalKey spec.name sc.region) = some s0)
    (hd : s0.description ≠ ClusterTagKey sc.name)
    (hne : subtractRanges s0.secondaryIpRanges spec.secondaryIpRanges ≠ s0.secondaryIpRanges) :
    deleteOrPatchSubnetworkStep mapCloud spec ⟨sc, cl, cs⟩ =
      (none, ⟨sc,
        { cl with subnets := insertK cl.subnets (RegionalKey spec.name sc.region) { s0 with secondaryIpRanges := subtractRanges s0.secondaryIpRanges spec.secondaryIpRanges } },
        cs ++ [.getSubnetwork (RegionalKey spec.name sc.region),
          .patchSubnetwork (RegionalKey spec.name sc.region) { s0 with secondaryIpRanges := subtractRanges s0.secondaryIpRanges spec.secondaryIpRanges }]⟩) := by
  simp only [deleteOrPatchSubnetworkStep, mBind, mPure, getScope]
  rw [subnetworksGet_found sc cl cs _ s0 hl]
  simp only [mBind, mPure]
  rw [if_neg hd]
  rw [if_pos hne]
  simp only [mBind, mPure]
  rw [subnetworksPatch_found sc cl _ _ s0 _ hl]
  simp [List.append_assoc, mPure]

theorem deleteStep_foreign_nop (sc : ScopeState) (cl : CloudState) (cs : List CloudCall)
    (spec s0 : Subnetwork) (hl : lookupK cl.subnets (RegionalKey spec.name sc.region) = some s0)
    (hd : s0.description ≠ ClusterTagKey sc.name)
    (heq : subtractRanges s0.secondaryIpRanges spec.secondaryIpRanges = s0.secondaryIpRanges) :
    deleteOrPatchSubnetworkStep mapCloud spec ⟨sc, cl, cs⟩ =
      (none, ⟨sc, cl, cs ++ [.getSubnetwork (RegionalKey spec.name sc.region)]⟩) := by
  simp only [deleteOrPatchSubnetworkStep, mBind, mPure, getScope]
  rw [subnetworksGet_found sc cl cs _ s0 hl]
  simp only [mBind, mPure]
  rw [if_neg hd]
  rw [if_neg (by rw [heq]; exact fun hc => hc rfl)]
  rfl

theorem deleteStep_frame (sc : ScopeState) (cl : CloudState) (cs : List CloudCall)
    (spec : Subnetwork) :
    (deleteOrPatchSubnetworkStep mapCloud spec ⟨sc, cl, cs⟩).snd.scope = sc ∧
    (deleteOrPatchSubnetworkStep mapCloud spec ⟨sc, cl, cs⟩).snd.cloud.networks = cl.networks ∧
    (deleteOrPatchSubnetworkStep mapCloud spec ⟨sc, cl, cs⟩).snd.cloud.routers = cl.routers ∧
    (deleteOrPatchSubnetworkStep mapCloud spec ⟨sc, cl, cs⟩).snd.cloud.instances = cl.instances ∧
    (deleteOrPatchSubnetworkStep mapCloud spec ⟨sc, cl, cs⟩).snd.cloud.groups = cl.groups ∧
    (∃ l, (deleteOrPatchSubnetworkStep mapCloud spec ⟨sc, cl, cs⟩).snd.calls = cs ++ l ∧
      ∀ c ∈ l, c.isSubnetCall = true) := by
  cases hl : lookupK cl.subnets (RegionalKey spec.name sc.region) with
  | none =>
    rw [deleteStep_absent sc cl cs spec hl]
    refine ⟨rfl, rfl, rfl, rfl, rfl, [.getSubnetwork (RegionalKey spec.name sc.region)], rfl, ?_⟩
    intro c hc
    simp at hc
    subst hc
    rfl
  | some s0 =>
    by_cases hd : s0.description = ClusterTagKey sc.name
    · rw [deleteStep_owned sc cl cs spec s0 hl hd]
      refine ⟨rfl, rfl, rfl, rfl, rfl, _, rfl, ?_⟩
      intro c hc
      simp at hc
      rcases hc with hc | hc <;> subst hc <;> rfl
    · by_cases hne : subtractRanges s0.secondaryIpRanges spec.secondaryIpRanges =
        s0.secondaryIpRanges
      · rw [deleteStep_foreign_nop sc cl cs spec s0 hl hd hne]
        refine ⟨rfl, rfl, rfl, rfl, rfl, _, rfl, ?_⟩
        intro c hc
        simp at hc
        subst hc
        rfl
      · rw [deleteStep_foreign_patch sc cl cs spec s0 hl hd hne]
        refine ⟨rfl, rfl, rfl, rfl, rfl, _, rfl, ?_⟩
        intro c hc
        simp at hc
        rcases hc with hc | hc <;> subst hc <;> rfl

theorem deleteLoop_frame :
    ∀ (specs : List Subnetwork) (sc : ScopeState) (cl : CloudState) (cs : List CloudCall),
    (deleteOrPatchSubnetworkLoop mapCloud specs ⟨sc, cl, cs⟩).snd.scope = sc ∧
    (deleteOrPatchSubnetworkLoop mapCloud specs ⟨sc, cl, cs⟩).snd.cloud.networks = cl.networks ∧
    (deleteOrPatchSubnetworkLoop mapCloud specs ⟨sc, cl, cs⟩).snd.cloud.routers = cl.routers ∧
    (deleteOrPatchSubnetworkLoop mapCloud specs ⟨sc, cl, cs⟩).snd.cloud.instances = cl.instances ∧
    (deleteOrPatchSubnetworkLoop mapCloud specs ⟨sc, cl, cs⟩).snd.cloud.groups = cl.groups ∧
    (∃ l, (deleteOrPatchSubnetworkLoop mapCloud specs ⟨sc, cl, cs⟩).snd.calls = cs ++ l ∧
      ∀ c ∈ l, c.isSubnetCall = true) := by
  intro specs
  induction specs with
  | nil =>
    intro sc cl cs
    exact ⟨rfl, rfl, rfl, rfl, rfl, [], by simp [deleteOrPatchSubnetworkLoop, mPure], by simp⟩
  | cons spec rest ih =>
    intro sc cl cs
    obtain ⟨h1, h2, h3, h4, h5, l1, hl1, hsub1⟩ := deleteStep_frame sc cl cs spec
    set T := (deleteOrPatchSubnetworkStep mapCloud spec ⟨sc, cl, cs⟩) with hT
    have heta : T.snd = (⟨sc, T.snd.cloud, T.snd.calls⟩ : RState CloudState) := by
      rw [← h1]
    cases hres : T.fst with
    | some e =>
      have hloop : deleteOrPatchSubnetworkLoop mapCloud (spec :: rest) ⟨sc, cl, cs⟩ =
          (some e, T.snd) := by
        simp only [deleteOrPatchSubnetworkLoop, mBind, mPure]
        rw [← hT, hres]
        rfl
      rw [hloop]
      exact ⟨h1, h2, h3, h4, h5, l1, hl1, hsub1⟩
    | none =>
      have hloop : deleteOrPatchSubnetworkLoop mapCloud (spec :: rest) ⟨sc, cl, cs⟩ =
          deleteOrPatchSubnetworkLoop mapCloud rest T.snd := by
        simp only [deleteOrPatchSubnetworkLoop, mBind, mPure]
        rw [← hT, hres]
      rw [hloop, heta]
      obtain ⟨g1, g2, g3, g4, g5, l2, hl2, hsub2⟩ := ih sc T.snd.cloud T.snd.calls
      refine ⟨g1, g2.trans h2, g3.trans h3, g4.trans h4, g5.trans h5, l1 ++ l2, ?_, ?_⟩
      · rw [hl2, hl1, List.append_assoc]
      · intro c hc
        rcases List.mem_append.mp hc with hc | hc
        · exact hsub1 c hc
        · exact hsub2 c hc

theorem deleteOrPatchSubnetwork_run (sc : ScopeState) (cl : CloudState) (cs : List CloudCall) :
    deleteOrPatchSubnetwork mapCloud ⟨sc, cl, cs⟩ =
      deleteOrPatchSubnetworkLoop mapCloud sc.subnetworksSpec ⟨sc, cl, cs⟩ := by
  simp only [deleteOrPatchSubnetwork, mBind, getScope]

theorem networkDelete_notOwned (sc : ScopeState) (cl : CloudState) (cs : List CloudCall)
    (n : Network) (hn : lookupK cl.networks (GlobalKey sc.networkName) = some n)
    (hd : n.description ≠ ClusterTagKey sc.name) :
    (∃ l, (networkDelete mapCloud ⟨sc, cl, cs⟩).snd.calls = cs ++ l ∧
      ∀ c ∈ l, c.isSubnetCall = true ∨ c = .getNetwork (GlobalKey sc.networkName)) ∧
    ((deleteOrPatchSubnetwork mapCloud ⟨sc, cl, cs⟩).fst = none →
      (networkDelete mapCloud ⟨sc, cl, cs⟩).fst = none) := by
  obtain ⟨f1, f2, f3, f4, f5, l1, hl1, hsub1⟩ := deleteLoop_frame sc.subnetworksSpec sc cl cs
  set T := deleteOrPatchSubnetworkLoop mapCloud sc.subnetworksSpec ⟨sc, cl, cs⟩ with hT
  have heta : T.snd = (⟨sc, T.snd.cloud, T.snd.calls⟩ : RState CloudState) := by
    rw [← f1]
  cases hres : T.fst with
  | some e =>
    have hmain : networkDelete mapCloud ⟨sc, cl, cs⟩ = (some e, T.snd) := by
      simp only [networkDelete, mBind, mPure, deleteOrPatchSubnetwork_run]
      rw [← hT, hres]
      rfl
    rw [hmain]
    refine ⟨⟨l1, hl1, fun c hc => Or.inl (hsub1 c hc)⟩, ?_⟩
    intro hnone
    rw [deleteOrPatchSubnetwork_run, ← hT, hres] at hnone
    exact absurd hnone (by simp)
  | none =>
    have hmain : networkDelete mapCloud ⟨sc, cl, cs⟩ =
        (none, ⟨sc, T.snd.cloud, T.snd.calls ++ [.getNetwork (GlobalKey sc.networkName)]⟩) := by
      simp only [networkDelete, mBind, mPure, deleteOrPatchSubnetwork_run]
      rw [← hT, hres]
      simp only [mBind, mPure, getScope]
      rw [heta]
      rw [networksGet_found sc T.snd.cloud T.snd.calls _ n (by rw [f2]; exact hn)]
      simp only [mBind, mPure]
      rw [if_pos hd]
      rfl
    rw [hmain]
    refine ⟨⟨l1 ++ [.getNetwork (GlobalKey sc.networkName)], ?_, ?_⟩, fun _ => rfl⟩
    · simp only [hl1, List.append_assoc]
    · intro c hc
      rcases List.mem_append.mp hc with hc | hc
      · exact Or.inl (hsub1 c hc)
      · simp at hc
        subst hc
        exact Or.inr rfl

theorem networkReconcile_notOwned (sc : ScopeState) (cl : CloudState) (cs : List CloudCall)
    (n : Network) (hn : lookupK cl.networks (GlobalKey sc.networkName) = some n)
    (hd : n.description ≠ ClusterTagKey sc.name) :
    ∃ l, (networkReconcile mapCloud ⟨sc, cl, cs⟩).snd.calls = cs ++ l ∧
      ∀ c ∈ l, c.isSubnetCall = true ∨ c = .getNetwork (GlobalKey sc.networkName) := by
  have hmain : networkReconcile mapCloud ⟨sc, cl, cs⟩ =
      createOrPatchSubnetLoop mapCloud n sc.subnetworksSpec
        ⟨{ sc with netSelfLink := some n.selfLink }, cl,
          cs ++ [.getNetwork (GlobalKey sc.networkName)]⟩ := by
    simp only [networkReconcile, mBind, mPure, getScope]
    rw [createOrGetNetwork_found sc cl cs n hn]
    simp only [mBind, mPure, getScope]
    rw [if_neg hd]
    simp only [mBind, mPure, modScope]
    simp only [createOrPatchSubnet, mBind, getScope]
  obtain ⟨g1, g2, g3, g4, g5, g6, g7, g8, l1, hl1, hsub1⟩ :=
    createOrPatchSubnetLoop_run n sc.subnetworksSpec
      { sc with netSelfLink := some n.selfLink } cl (cs ++ [.getNetwork (GlobalKey sc.networkName)])
  rw [hmain]
  refine ⟨[.getNetwork (GlobalKey sc.networkName)] ++ l1, ?_, ?_⟩
  · rw [hl1, List.append_assoc]
  · intro c hc
    rcases List.mem_append.mp hc with hc | hc
    · simp at hc
      subst hc
      exact Or.inr rfl
    · exact Or.inl (hsub1 c hc)

theorem contains_isEmpty_false {l : List String} {a : String}
    (h : l.contains a = true) : l.isEmpty = false := by
  cases l with
  | nil => simp at h
  | cons x xs => rfl

theorem instanceDelete_run (sc : ScopeState) (cl : CloudState) (cs : List CloudCall)
    (i : Instance) (members : List String)
    (hi : lookupK cl.instances (ZonalKey sc.instanceSpec.name sc.zone) = some i)
    (hcp : sc.isControlPlane = true)
    (hg : lookupK cl.groups (ZonalKey sc.controlPlaneGroupName sc.zone) = some members) :
    (instanceDelete mapCloud ⟨sc, cl, cs⟩).fst = none ∧
    ((runningOf cl members).contains i.selfLink = true →
      (instanceDelete mapCloud ⟨sc, cl, cs⟩).snd.calls =
        cs ++ [.getInstance (ZonalKey sc.instanceSpec.name sc.zone),
          .listGroupInstances (ZonalKey sc.controlPlaneGroupName sc.zone) instanceStatusRunning,
          .removeInstances (ZonalKey sc.controlPlaneGroupName sc.zone) i.selfLink,
          .deleteInstance (ZonalKey sc.instanceSpec.name sc.zone)]) ∧
    ((runningOf cl members).contains i.selfLink = false →
      (instanceDelete mapCloud ⟨sc, cl, cs⟩).snd.calls =
        cs ++ [.getInstance (ZonalKey sc.instanceSpec.name sc.zone),
          .listGroupInstances (ZonalKey sc.controlPlaneGroupName sc.zone) instanceStatusRunning,
          .deleteInstance (ZonalKey sc.instanceSpec.name sc.zone)]) := by
  cases hcont : (runningOf cl members).contains i.selfLink with
  | true =>
    have hmain : instanceDelete mapCloud ⟨sc, cl, cs⟩ =
        (none, ⟨sc,
          { cl with
            groups := insertK cl.groups (ZonalKey sc.controlPlaneGroupName sc.zone) (members.filter (fun x => !(x == i.selfLink))),
            instances := removeK cl.instances (ZonalKey sc.instanceSpec.name sc.zone) },
          cs ++ [.getInstance (ZonalKey sc.instanceSpec.name sc.zone),
            .listGroupInstances (ZonalKey sc.controlPlaneGroupName sc.zone) instanceStatusRunning,
            .removeInstances (ZonalKey sc.controlPlaneGroupName sc.zone) i.selfLink,
            .deleteInstance (ZonalKey sc.instanceSpec.name sc.zone)]⟩) := by
      simp only [instanceDelete, mBind, mPure, getScope]
      rw [instancesGet_found sc cl cs _ i hi]
      simp only [mBind, mPure]
      rw [if_pos hcp]
      simp only [deregisterControlPlaneInstance, mBind, mPure, getScope]
      rw [listGroupInstances_found sc cl _ _ members hg]
      simp only [mBind, mPure, hcont, contains_isEmpty_false hcont]
      simp only [Bool.not_false, Bool.and_self, if_true]
      rw [removeInstances_found sc cl _ _ i.selfLink members hg]
      simp only [mBind, mPure]
      rw [instancesDelete_found sc { cl with groups := insertK cl.groups (ZonalKey sc.controlPlaneGroupName sc.zone) (members.filter (fun x => !(x == i.selfLink))) } _ _ i hi]
      simp [List.append_assoc, ignoreNotFound, mPure]
    rw [hmain]
    exact ⟨rfl, fun _ => rfl, fun hc => absurd hc (by simp)⟩
  | false =>
    have hmain : instanceDelete mapCloud ⟨sc, cl, cs⟩ =
        (none, ⟨sc,
          { cl with instances := removeK cl.instances (ZonalKey sc.instanceSpec.name sc.zone) },
          cs ++ [.getInstance (ZonalKey sc.instanceSpec.name sc.zone),
            .listGroupInstances (ZonalKey sc.controlPlaneGroupName sc.zone) instanceStatusRunning,
            .deleteInstance (ZonalKey sc.instanceSpec.name sc.zone)]⟩) := by
      simp only [instanceDelete, mBind, mPure, getScope]
      rw [instancesGet_found sc cl cs _ i hi]
      simp only [mBind, mPure]
      rw [if_pos hcp]
      simp only [deregisterControlPlaneInstance, mBind, mPure, getScope]
      rw [listGroupInstances_found sc cl _ _ members hg]
      simp only [mBind, mPure, hcont, Bool.and_false, if_false]
      simp only [Bool.false_eq_true, if_false]
      simp only [mBind, mPure]
      rw [instancesDelete_found sc cl _ _ i hi]
      simp [List.append_assoc, ignoreNotFound, mPure]
    rw [hmain]
    exact ⟨rfl, fun hc => absurd hc (by simp), fun _ => rfl⟩

/-! ## Concrete fixtures for witnesses and counterexamples -/

/-- A small concrete scope used by witnesses. -/
def baseScope : ScopeState :=
  { name := "clu", region := "reg", zone := "zo", networkName := "net",
    networkSpec := { name := "net", description := ClusterTagKey "clu", selfLink := "net-link" },
    natRouterSpec := { name := "nat", network := "", description := "", selfLink := "nat-link" },
    subnetworksSpec := [{ name := "sub1", network := "", description := "", secondaryIpRanges := [⟨"B", "10.0.1.0/24"⟩] }],
    instanceSpec := { name := "m1", selfLink := "m1-link", status := "RUNNING", metadataItems := [], networkInterfaces := [] },
    controlPlaneGroupName := "cpg", isControlPlane := true, bootstrapData := .ok "bd",
    netRouter := none, netSelfLink := none, providerID := none, addresses := [],
    instanceStatus := none }

/-- The empty provider store. -/
def emptyCloud : CloudState :=
  { networks := [], routers := [], subnets := [], instances := [], groups := [] }

/-! ## Claims -/

/-- Claim C1: the spec says that during network Delete a subnet lookup
failing with not-found is swallowed (deletion is idempotent and Delete on
never-created subnets completes without error) while other lookup errors
abort.  The code has the test inverted: at the failing input below — one
subnet spec, provider holding no subnets — the lookup reports not-found
and Delete aborts with that error instead of succeeding (and, dually, a
non-not-found lookup error would be swallowed by the loop's continue).
This theorem evaluates the code at the failing input. -/
theorem c1_delete_aborts_on_not_found :
    (runM (networkDelete mapCloud) baseScope emptyCloud).fst = some GErr.notFound ∧
    (runM (networkDelete mapCloud) baseScope emptyCloud).snd.calls =
      [CloudCall.getSubnetwork (RegionalKey "sub1" "reg")] := by
  exact ⟨rfl, rfl⟩

/-- Claim C2: for a network whose observed description differs from the
cluster's ownership tag, Reconcile never issues a router Insert or router
Delete, and Delete never issues a network Delete or router Delete, and
Delete returns nil when the subnet phase reported no error. -/
theorem c2_ownership_gating (sc : ScopeState) (cl : CloudState) (n : Network)
    (hn : lookupK cl.networks (GlobalKey sc.networkName) = some n)
    (hd : n.description ≠ ClusterTagKey sc.name) :
    (∀ k r, CloudCall.insertRouter k r ∉ (runM (networkReconcile mapCloud) sc cl).snd.calls) ∧
    (∀ k, CloudCall.deleteRouter k ∉ (runM (networkReconcile mapCloud) sc cl).snd.calls) ∧
    (∀ k, CloudCall.deleteNetwork k ∉ (runM (networkDelete mapCloud) sc cl).snd.calls) ∧
    (∀ k, CloudCall.deleteRouter k ∉ (runM (networkDelete mapCloud) sc cl).snd.calls) ∧
    ((runM (deleteOrPatchSubnetwork mapCloud) sc cl).fst = none →
      (runM (networkDelete mapCloud) sc cl).fst = none) := by
  obtain ⟨l1, hl1, hchar1⟩ := networkReconcile_notOwned sc cl [] n hn hd
  obtain ⟨⟨l2, hl2, hchar2⟩, himp⟩ := networkDelete_notOwned sc cl [] n hn hd
  have hr : (runM (networkReconcile mapCloud) sc cl).snd.calls = l1 := by
    rw [show (runM (networkReconcile mapCloud) sc cl).snd.calls =
      (networkReconcile mapCloud ⟨sc, cl, []⟩).snd.calls from rfl, hl1]
    simp
  have hdl : (runM (networkDelete mapCloud) sc cl).snd.calls = l2 := by
    rw [show (runM (networkDelete mapCloud) sc cl).snd.calls =
      (networkDelete mapCloud ⟨sc, cl, []⟩).snd.calls from rfl, hl2]
    simp
  refine ⟨?_, ?_, ?_, ?_, himp⟩
  · intro k r hmem
    rw [hr] at hmem
    rcases hchar1 _ hmem with h | h
    · simp [CloudCall.isSubnetCall] at h
    · exact CloudCall.noConfusion h
  · intro k hmem
    rw [hr] at hmem
    rcases hchar1 _ hmem with h | h
    · simp [CloudCall.isSubnetCall] at h
    · exact CloudCall.noConfusion h
  · intro k hmem
    rw [hdl] at hmem
    rcases hchar2 _ hmem with h | h
    · simp [CloudCall.isSubnetCall] at h
    · exact CloudCall.noConfusion h
  · intro k hmem
    rw [hdl] at hmem
    rcases hchar2 _ hmem with h | h
    · simp [CloudCall.isSubnetCall] at h
    · exact CloudCall.noConfusion h

/-- A cloud holding a foreign (externally owned) network under the base
scope's network key. -/
def foreignNetCloud : CloudState :=
  { networks := [(GlobalKey "net", { name := "net", description := "someone-else", selfLink := "ext-link" })],
    routers := [], subnets := [], instances := [], groups := [] }

/-- Witness for Claim C2 at a concrete foreign network. -/
theorem c2_ownership_gating_witness :
    (lookupK foreignNetCloud.networks (GlobalKey baseScope.networkName) =
      some { name := "net", description := "someone-else", selfLink := "ext-link" }) ∧
    ("someone-else" : String) ≠ ClusterTagKey baseScope.name ∧
    ((∀ k r, CloudCall.insertRouter k r ∉
        (runM (networkReconcile mapCloud) baseScope foreignNetCloud).snd.calls) ∧
     (∀ k, CloudCall.deleteRouter k ∉
        (runM (networkReconcile mapCloud) baseScope foreignNetCloud).snd.calls) ∧
     (∀ k, CloudCall.deleteNetwork k ∉
        (runM (networkDelete mapCloud) baseScope foreignNetCloud).snd.calls) ∧
     (∀ k, CloudCall.deleteRouter k ∉
        (runM (networkDelete mapCloud) baseScope foreignNetCloud).snd.calls) ∧
     ((runM (deleteOrPatchSubnetwork mapCloud) baseScope foreignNetCloud).fst = none →
        (runM (networkDelete mapCloud) baseScope foreignNetCloud).fst = none)) :=
  ⟨by decide, by decide,
    c2_ownership_gating baseScope foreignNetCloud
      { name := "net", description := "someone-else", selfLink := "ext-link" }
      (by decide) (by decide)⟩

/-- Claim C5: registerControlPlaneInstance issues AddInstances exactly
when the instance's self-link is not among the members listed in the
RUNNING state and its observed status is RUNNING; a non-RUNNING instance
is never added and an already-listed one is never added again. -/
theorem c5_register_gate (sc : ScopeState) (cl : CloudState) (inst : Instance)
    (members : List String)
    (hg : lookupK cl.groups (ZonalKey sc.controlPlaneGroupName sc.zone) = some members) :
    (runM (registerControlPlaneInstance mapCloud inst) sc cl).fst = none ∧
    ((CloudCall.addInstances (ZonalKey sc.controlPlaneGroupName sc.zone) inst.selfLink ∈
        (runM (registerControlPlaneInstance mapCloud inst) sc cl).snd.calls) ↔
      ((runningOf cl members).contains inst.selfLink = false ∧
        inst.status = instanceStatusRunning)) := by
  have h0 : runM (registerControlPlaneInstance mapCloud inst) sc cl =
      registerControlPlaneInstance mapCloud inst ⟨sc, cl, []⟩ := rfl
  cases hcond : (!((runningOf cl members).contains inst.selfLink)
      && inst.status == instanceStatusRunning) with
  | false =>
    rw [h0, registerControlPlaneInstance_closed sc cl [] inst members hg hcond]
    refine ⟨rfl, ?_⟩
    constructor
    · intro hmem
      simp at hmem
    · rintro ⟨hc, hs⟩
      rw [hc, hs] at hcond
      simp [instanceStatusRunning] at hcond
  | true =>
    rw [h0, registerControlPlaneInstance_add sc cl [] inst members hg hcond]
    rcases Bool.and_eq_true_iff.mp hcond with ⟨h1, h2⟩
    refine ⟨rfl, ?_⟩
    constructor
    · intro _
      constructor
      · simpa using h1
      · simpa using h2
    · intro _
      simp

/-- A cloud with an empty control-plane instance group under the base
scope's group key. -/
def emptyGroupCloud : CloudState :=
  { networks := [], routers := [], subnets := [], instances := [],
    groups := [(ZonalKey "cpg" "zo", [])] }

/-- Witness for Claim C5: an empty RUNNING listing plus a RUNNING instance
leads to exactly one AddInstances call. -/
theorem c5_register_gate_witness :
    (lookupK emptyGroupCloud.groups
      (ZonalKey baseScope.controlPlaneGroupName baseScope.zone) = some []) ∧
    ((runM (registerControlPlaneInstance mapCloud baseScope.instanceSpec)
        baseScope emptyGroupCloud).fst = none ∧
     ((CloudCall.addInstances (ZonalKey baseScope.controlPlaneGroupName baseScope.zone)
          baseScope.instanceSpec.selfLink ∈
        (runM (registerControlPlaneInstance mapCloud baseScope.instanceSpec)
          baseScope emptyGroupCloud).snd.calls) ↔
       ((runningOf emptyGroupCloud []).contains baseScope.instanceSpec.selfLink = false ∧
         baseScope.instanceSpec.status = instanceStatusRunning))) :=
  ⟨by decide, c5_register_gate baseScope emptyGroupCloud baseScope.instanceSpec [] (by decide)⟩

/-- Claim C10: during instance Delete of a control-plane machine, the
deregistration lists only RUNNING members and issues RemoveInstances
exactly when the instance's self-link appears in that listing; a member
whose instance is not observed RUNNING is never removed, and the instance
itself is deleted afterwards in every case. -/
theorem c10_deregister_gate (sc : ScopeState) (cl : CloudState) (i : Instance)
    (members : List String)
    (hi : lookupK cl.instances (ZonalKey sc.instanceSpec.name sc.zone) = some i)
    (hcp : sc.isControlPlane = true)
    (hg : lookupK cl.groups (ZonalKey sc.controlPlaneGroupName sc.zone) = some members) :
    (runM (instanceDelete mapCloud) sc cl).fst = none ∧
    ((CloudCall.removeInstances (ZonalKey sc.controlPlaneGroupName sc.zone) i.selfLink ∈
        (runM (instanceDelete mapCloud) sc cl).snd.calls) ↔
      (runningOf cl members).contains i.selfLink = true) ∧
    (runningLink cl i.selfLink = false →
      CloudCall.removeInstances (ZonalKey sc.controlPlaneGroupName sc.zone) i.selfLink ∉
        (runM (instanceDelete mapCloud) sc cl).snd.calls) ∧
    CloudCall.deleteInstance (ZonalKey sc.instanceSpec.name sc.zone) ∈
      (runM (instanceDelete mapCloud) sc cl).snd.calls := by
  have h0 : runM (instanceDelete mapCloud) sc cl = instanceDelete mapCloud ⟨sc, cl, []⟩ := rfl
  obtain ⟨hfst, htrue, hfalse⟩ := instanceDelete_run sc cl [] i members hi hcp hg
  have hcl : ((runningOf cl members).contains i.selfLink = true →
      runningLink cl i.selfLink = true) := by
    intro hc
    have hmem : i.selfLink ∈ runningOf cl members := by simpa using hc
    unfold runningOf at hmem
    exact (List.mem_filter.mp hmem).2
  cases hcont : (runningOf cl members).contains i.selfLink with
  | true =>
    rw [h0, htrue hcont]
    refine ⟨hfst.symm ▸ hfst, ?_, ?_, ?_⟩
    · simp
    · intro hrl
      rw [hcl hcont] at hrl
      exact absurd hrl (by simp)
    · simp
  | false =>
    rw [h0, hfalse hcont]
    refine ⟨hfst.symm ▸ hfst, ?_, ?_, ?_⟩
    · simp
    · intro _ hmem
      simp at hmem
    · simp

/-- A cloud with the base instance stored and registered as the single
RUNNING member of the control-plane group. -/
def registeredCloud : CloudState :=
  { networks := [], routers := [], subnets := [],
    instances := [(ZonalKey "m1" "zo", baseScope.instanceSpec)],
    groups := [(ZonalKey "cpg" "zo", ["m1-link"])] }

/-- Witness for Claim C10: a registered RUNNING control-plane instance is
removed from the group and then deleted. -/
theorem c10_deregister_gate_witness :
    (lookupK registeredCloud.instances
      (ZonalKey baseScope.instanceSpec.name baseScope.zone) = some baseScope.instanceSpec) ∧
    baseScope.isControlPlane = true ∧
    (lookupK registeredCloud.groups
      (ZonalKey baseScope.controlPlaneGroupName baseScope.zone) = some ["m1-link"]) ∧
    ((runM (instanceDelete mapCloud) baseScope registeredCloud).fst = none ∧
     ((CloudCall.removeInstances (ZonalKey baseScope.controlPlaneGroupName baseScope.zone)
          baseScope.instanceSpec.selfLink ∈
        (runM (instanceDelete mapCloud) baseScope registeredCloud).snd.calls) ↔
       (runningOf registeredCloud ["m1-link"]).contains baseScope.instanceSpec.selfLink = true) ∧
     (runningLink registeredCloud baseScope.instanceSpec.selfLink = false →
       CloudCall.removeInstances (ZonalKey baseScope.controlPlaneGroupName baseScope.zone)
          baseScope.instanceSpec.selfLink ∉
        (runM (instanceDelete mapCloud) baseScope registeredCloud).snd.calls) ∧
     CloudCall.deleteInstance (ZonalKey baseScope.instanceSpec.name baseScope.zone) ∈
       (runM (instanceDelete mapCloud) baseScope registeredCloud).snd.calls) :=
  ⟨by decide, by decide, by decide,
    c10_deregister_gate baseScope registeredCloud baseScope.instanceSpec ["m1-link"]
      (by decide) (by decide) (by decide)⟩

theorem createOrPatchSubnetStep_patch (sc : ScopeState) (cl : CloudState) (cs : List CloudCall)
    (network : Network) (spec s0 : Subnetwork)
    (hl : lookupK cl.subnets (RegionalKey spec.name sc.region) = some s0)
    (hm : mergeRanges s0.secondaryIpRanges spec.secondaryIpRanges ≠ s0.secondaryIpRanges) :
    createOrPatchSubnetStep mapCloud network spec ⟨sc, cl, cs⟩ =
      (none, ⟨sc,
        { cl with subnets := insertK cl.subnets (RegionalKey spec.name sc.region) { s0 with secondaryIpRanges := mergeRanges s0.secondaryIpRanges spec.secondaryIpRanges } },
        cs ++ [.getSubnetwork (RegionalKey spec.name sc.region),
          .patchSubnetwork (RegionalKey spec.name sc.region) { s0 with secondaryIpRanges := mergeRanges s0.secondaryIpRanges spec.secondaryIpRanges }]⟩) := by
  simp only [createOrPatchSubnetStep, mBind, mPure, getScope]
  rw [subnetworksGet_found sc cl cs _ s0 hl]
  simp only [mBind, mPure]
  rw [if_pos hm]
  simp only [mBind]
  rw [subnetworksPatch_found sc cl _ _ s0 _ hl]
  simp [List.append_assoc, mPure]

/-- Claim C3: createOrPatchSubnet computes the name-keyed union of the
observed secondary ranges with the spec's (observed entries kept, spec-only
entries appended after them), patches the subnet with the union exactly
when it differs from the observed list, and never removes an observed
secondary range. -/
theorem c3_secondary_range_union (sc : ScopeState) (cl : CloudState) (network : Network)
    (spec s0 : Subnetwork) (hspec : sc.subnetworksSpec = [spec])
    (hs : lookupK cl.subnets (RegionalKey spec.name sc.region) = some s0) :
    (∃ t, mergeRanges s0.secondaryIpRanges spec.secondaryIpRanges =
        s0.secondaryIpRanges ++ t ∧
      t = spec.secondaryIpRanges.filter
        (fun r => !((rangeNames s0.secondaryIpRanges).contains r.rangeName))) ∧
    (∀ r ∈ spec.secondaryIpRanges,
      r.rangeName ∈ rangeNames (mergeRanges s0.secondaryIpRanges spec.secondaryIpRanges)) ∧
    (runM (createOrPatchSubnet mapCloud network) sc cl).fst = none ∧
    (mergeRanges s0.secondaryIpRanges spec.secondaryIpRanges ≠ s0.secondaryIpRanges →
      (runM (createOrPatchSubnet mapCloud network) sc cl).snd.calls =
        [.getSubnetwork (RegionalKey spec.name sc.region),
         .patchSubnetwork (RegionalKey spec.name sc.region) { s0 with secondaryIpRanges := mergeRanges s0.secondaryIpRanges spec.secondaryIpRanges }] ∧
      lookupK (runM (createOrPatchSubnet mapCloud network) sc cl).snd.cloud.subnets
        (RegionalKey spec.name sc.region) =
          some { s0 with secondaryIpRanges := mergeRanges s0.secondaryIpRanges spec.secondaryIpRanges }) ∧
    (mergeRanges s0.secondaryIpRanges spec.secondaryIpRanges = s0.secondaryIpRanges →
      (runM (createOrPatchSubnet mapCloud network) sc cl).snd.calls =
        [.getSubnetwork (RegionalKey spec.name sc.region)] ∧
      (runM (createOrPatchSubnet mapCloud network) sc cl).snd.cloud = cl) := by
  have h0 : runM (createOrPatchSubnet mapCloud network) sc cl =
      createOrPatchSubnetLoop mapCloud network [spec] ⟨sc, cl, []⟩ := by
    show createOrPatchSubnet mapCloud network ⟨sc, cl, []⟩ = _
    rw [createOrPatchSubnet_run, hspec]
  have hA : ∃ t, mergeRanges s0.secondaryIpRanges spec.secondaryIpRanges =
      s0.secondaryIpRanges ++ t ∧
    t = spec.secondaryIpRanges.filter
      (fun r => !((rangeNames s0.secondaryIpRanges).contains r.rangeName)) := ⟨_, rfl, rfl⟩
  have hB : ∀ r ∈ spec.secondaryIpRanges,
      r.rangeName ∈ rangeNames (mergeRanges s0.secondaryIpRanges spec.secondaryIpRanges) :=
    rangesClosed_mergeRanges s0.secondaryIpRanges spec.secondaryIpRanges
  by_cases hm : mergeRanges s0.secondaryIpRanges spec.secondaryIpRanges = s0.secondaryIpRanges
  · have hstep := createOrPatchSubnetStep_closed sc cl [] network spec
      ⟨s0, hs, (mergeRanges_eq_iff _ _).mp hm⟩
    have hloop : createOrPatchSubnetLoop mapCloud network [spec] ⟨sc, cl, []⟩ =
        (none, ⟨sc, cl, [.getSubnetwork (RegionalKey spec.name sc.region)]⟩) := by
      simp only [createOrPatchSubnetLoop, mBind, mPure, hstep]
      rfl
    rw [h0, hloop]
    exact ⟨hA, hB, rfl, fun hne => absurd hm hne, fun _ => ⟨rfl, rfl⟩⟩
  · have hstep := createOrPatchSubnetStep_patch sc cl [] network spec s0 hs hm
    have hloop : createOrPatchSubnetLoop mapCloud network [spec] ⟨sc, cl, []⟩ =
        (none, ⟨sc,
          { cl with subnets := insertK cl.subnets (RegionalKey spec.name sc.region) { s0 with secondaryIpRanges := mergeRanges s0.secondaryIpRanges spec.secondaryIpRanges } },
          [.getSubnetwork (RegionalKey spec.name sc.region),
           .patchSubnetwork (RegionalKey spec.name sc.region) { s0 with secondaryIpRanges := mergeRanges s0.secondaryIpRanges spec.secondaryIpRanges }]⟩) := by
      simp only [createOrPatchSubnetLoop, mBind, mPure, hstep]
      rfl
    rw [h0, hloop]
    exact ⟨hA, hB, rfl, fun _ => ⟨rfl, lookupK_insert_self _ _ _⟩, fun heq => absurd heq hm⟩

/-- A cloud holding a foreign subnet with range A at the base scope's
subnet key (the spec asks for range B). -/
def subnetACloud : CloudState :=
  { networks := [], routers := [],
    subnets := [(RegionalKey "sub1" "reg", { name := "sub1", network := "", description := "someone-else", secondaryIpRanges := [⟨"A", "10.0.0.0/24"⟩] })],
    instances := [], groups := [] }

/-- Witness for Claim C3: observed range set A and desired range set B
merge to A,B and the subnet is patched with exactly that union. -/
theorem c3_secondary_range_union_witness :
    baseScope.subnetworksSpec =
      [{ name := "sub1", network := "", description := "", secondaryIpRanges := [⟨"B", "10.0.1.0/24"⟩] }] ∧
    lookupK subnetACloud.subnets (RegionalKey "sub1" baseScope.region) =
      some { name := "sub1", network := "", description := "someone-else", secondaryIpRanges := [⟨"A", "10.0.0.0/24"⟩] } ∧
    ((∃ t, mergeRanges [⟨"A", "10.0.0.0/24"⟩] [⟨"B", "10.0.1.0/24"⟩] =
        [(⟨"A", "10.0.0.0/24"⟩ : SecondaryRange)] ++ t ∧
      t = [(⟨"B", "10.0.1.0/24"⟩ : SecondaryRange)].filter
        (fun r => !((rangeNames [⟨"A", "10.0.0.0/24"⟩]).contains r.rangeName))) ∧
     (∀ r ∈ [(⟨"B", "10.0.1.0/24"⟩ : SecondaryRange)],
       r.rangeName ∈ rangeNames (mergeRanges [⟨"A", "10.0.0.0/24"⟩] [⟨"B", "10.0.1.0/24"⟩])) ∧
     (runM (createOrPatchSubnet mapCloud baseScope.networkSpec) baseScope subnetACloud).fst =
       none ∧
     (mergeRanges [⟨"A", "10.0.0.0/24"⟩] [⟨"B", "10.0.1.0/24"⟩] ≠ [⟨"A", "10.0.0.0/24"⟩] →
       (runM (createOrPatchSubnet mapCloud baseScope.networkSpec) baseScope subnetACloud).snd.calls =
         [.getSubnetwork (RegionalKey "sub1" baseScope.region),
          .patchSubnetwork (RegionalKey "sub1" baseScope.region) { name := "sub1", network := "", description := "someone-else", secondaryIpRanges := mergeRanges [⟨"A", "10.0.0.0/24"⟩] [⟨"B", "10.0.1.0/24"⟩] }] ∧
       lookupK (runM (createOrPatchSubnet mapCloud baseScope.networkSpec) baseScope
           subnetACloud).snd.cloud.subnets (RegionalKey "sub1" baseScope.region) =
         some { name := "sub1", network := "", description := "someone-else", secondaryIpRanges := mergeRanges [⟨"A", "10.0.0.0/24"⟩] [⟨"B", "10.0.1.0/24"⟩] }) ∧
     (mergeRanges [⟨"A", "10.0.0.0/24"⟩] [⟨"B", "10.0.1.0/24"⟩] = [⟨"A", "10.0.0.0/24"⟩] →
       (runM (createOrPatchSubnet mapCloud baseScope.networkSpec) baseScope subnetACloud).snd.calls =
         [.getSubnetwork (RegionalKey "sub1" baseScope.region)] ∧
       (runM (createOrPatchSubnet mapCloud baseScope.networkSpec) baseScope
           subnetACloud).snd.cloud = subnetACloud)) :=
  ⟨by decide, by decide,
    c3_secondary_range_union baseScope subnetACloud baseScope.networkSpec
      { name := "sub1", network := "", description := "", secondaryIpRanges := [⟨"B", "10.0.1.0/24"⟩] }
      { name := "sub1", network := "", description := "someone-else", secondaryIpRanges := [⟨"A", "10.0.0.0/24"⟩] }
      (by decide) (by decide)⟩

/-- Claim C6: during network Delete, an observed subnet whose description
equals the ownership tag is deleted outright; one whose description
differs is never deleted and is instead patched down to the observed
ranges minus the current spec's range names, with the Patch issued only
when that subtraction changes the list. -/
theorem c6_delete_or_restore (sc : ScopeState) (cl : CloudState) (spec s0 : Subnetwork)
    (hspec : sc.subnetworksSpec = [spec])
    (hs : lookupK cl.subnets (RegionalKey spec.name sc.region) = some s0) :
    (s0.description = ClusterTagKey sc.name →
      (runM (deleteOrPatchSubnetwork mapCloud) sc cl).fst = none ∧
      (runM (deleteOrPatchSubnetwork mapCloud) sc cl).snd.calls =
        [.getSubnetwork (RegionalKey spec.name sc.region),
         .deleteSubnetwork (RegionalKey spec.name sc.region)] ∧
      lookupK (runM (deleteOrPatchSubnetwork mapCloud) sc cl).snd.cloud.subnets
        (RegionalKey spec.name sc.region) = none) ∧
    (s0.description ≠ ClusterTagKey sc.name →
      (∀ k2, CloudCall.deleteSubnetwork k2 ∉
        (runM (deleteOrPatchSubnetwork mapCloud) sc cl).snd.calls) ∧
      (runM (deleteOrPatchSubnetwork mapCloud) sc cl).fst = none ∧
      (subtractRanges s0.secondaryIpRanges spec.secondaryIpRanges ≠ s0.secondaryIpRanges →
        (runM (deleteOrPatchSubnetwork mapCloud) sc cl).snd.calls =
          [.getSubnetwork (RegionalKey spec.name sc.region),
           .patchSubnetwork (RegionalKey spec.name sc.region) { s0 with secondaryIpRanges := subtractRanges s0.secondaryIpRanges spec.secondaryIpRanges }] ∧
        lookupK (runM (deleteOrPatchSubnetwork mapCloud) sc cl).snd.cloud.subnets
          (RegionalKey spec.name sc.region) =
            some { s0 with secondaryIpRanges := subtractRanges s0.secondaryIpRanges spec.secondaryIpRanges }) ∧
      (subtractRanges s0.secondaryIpRanges spec.secondaryIpRanges = s0.secondaryIpRanges →
        (runM (deleteOrPatchSubnetwork mapCloud) sc cl).snd.calls =
          [.getSubnetwork (RegionalKey spec.name sc.region)] ∧
        (runM (deleteOrPatchSubnetwork mapCloud) sc cl).snd.cloud = cl)) := by
  have h0 : runM (deleteOrPatchSubnetwork mapCloud) sc cl =
      deleteOrPatchSubnetworkLoop mapCloud [spec] ⟨sc, cl, []⟩ := by
    show deleteOrPatchSubnetwork mapCloud ⟨sc, cl, []⟩ = _
    rw [deleteOrPatchSubnetwork_run, hspec]
  constructor
  · intro hd
    have hstep := deleteStep_owned sc cl [] spec s0 hs hd
    have hloop : deleteOrPatchSubnetworkLoop mapCloud [spec] ⟨sc, cl, []⟩ =
        (none, ⟨sc, { cl with subnets := removeK cl.subnets (RegionalKey spec.name sc.region) },
          [.getSubnetwork (RegionalKey spec.name sc.region),
           .deleteSubnetwork (RegionalKey spec.name sc.region)]⟩) := by
      simp only [deleteOrPatchSubnetworkLoop, mBind, mPure, hstep]
      rfl
    rw [h0, hloop]
    exact ⟨rfl, rfl, lookupK_remove_self _ _⟩
  · intro hd
    by_cases hne : subtractRanges s0.secondaryIpRanges spec.secondaryIpRanges =
        s0.secondaryIpRanges
    · have hstep := deleteStep_foreign_nop sc cl [] spec s0 hs hd hne
      have hloop : deleteOrPatchSubnetworkLoop mapCloud [spec] ⟨sc, cl, []⟩ =
          (none, ⟨sc, cl, [.getSubnetwork (RegionalKey spec.name sc.region)]⟩) := by
        simp only [deleteOrPatchSubnetworkLoop, mBind, mPure, hstep]
        rfl
      rw [h0, hloop]
      refine ⟨?_, rfl, fun hx => absurd hne hx, fun _ => ⟨rfl, rfl⟩⟩
      intro k2 hmem
      simp at hmem
    · have hstep := deleteStep_foreign_patch sc cl [] spec s0 hs hd hne
      have hloop : deleteOrPatchSubnetworkLoop mapCloud [spec] ⟨sc, cl, []⟩ =
          (none, ⟨sc,
            { cl with subnets := insertK cl.subnets (RegionalKey spec.name sc.region) { s0 with secondaryIpRanges := subtractRanges s0.secondaryIpRanges spec.secondaryIpRanges } },
            [.getSubnetwork (RegionalKey spec.name sc.region),
             .patchSubnetwork (RegionalKey spec.name sc.region) { s0 with secondaryIpRanges := subtractRanges s0.secondaryIpRanges spec.secondaryIpRanges }]⟩) := by
        simp only [deleteOrPatchSubnetworkLoop, mBind, mPure, hstep]
        rfl
      rw [h0, hloop]
      refine ⟨?_, rfl, fun _ => ⟨rfl, lookupK_insert_self _ _ _⟩, fun heq => absurd heq hne⟩
      intro k2 hmem
      simp at hmem

/-- A cloud holding a foreign subnet with ranges A and B at the base
scope's subnet key (the spec's ranges are just B). -/
def subnetABCloud : CloudState :=
  { networks := [], routers := [],
    subnets := [(RegionalKey "sub1" "reg", { name := "sub1", network := "", description := "someone-else", secondaryIpRanges := [⟨"A", "10.0.0.0/24"⟩, ⟨"B", "10.0.1.0/24"⟩] })],
    instances := [], groups := [] }

/-- Witness for Claim C6: observed ranges A,B with current spec ranges B
are patched down to exactly A, and the subnet is not deleted. -/
theorem c6_delete_or_restore_witness :
    baseScope.subnetworksSpec =
      [{ name := "sub1", network := "", description := "", secondaryIpRanges := [⟨"B", "10.0.1.0/24"⟩] }] ∧
    lookupK subnetABCloud.subnets (RegionalKey "sub1" baseScope.region) =
      some { name := "sub1", network := "", description := "someone-else", secondaryIpRanges := [⟨"A", "10.0.0.0/24"⟩, ⟨"B", "10.0.1.0/24"⟩] } ∧
    (("someone-else" : String) ≠ ClusterTagKey baseScope.name →
      (∀ k2, CloudCall.deleteSubnetwork k2 ∉
        (runM (deleteOrPatchSubnetwork mapCloud) baseScope subnetABCloud).snd.calls) ∧
      (runM (deleteOrPatchSubnetwork mapCloud) baseScope subnetABCloud).fst = none ∧
      (subtractRanges [⟨"A", "10.0.0.0/24"⟩, ⟨"B", "10.0.1.0/24"⟩] [⟨"B", "10.0.1.0/24"⟩] ≠
          [⟨"A", "10.0.0.0/24"⟩, ⟨"B", "10.0.1.0/24"⟩] →
        (runM (deleteOrPatchSubnetwork mapCloud) baseScope subnetABCloud).snd.calls =
          [.getSubnetwork (RegionalKey "sub1" baseScope.region),
           .patchSubnetwork (RegionalKey "sub1" baseScope.region) { name := "sub1", network := "", description := "someone-else", secondaryIpRanges := subtractRanges [⟨"A", "10.0.0.0/24"⟩, ⟨"B", "10.0.1.0/24"⟩] [⟨"B", "10.0.1.0/24"⟩] }] ∧
        lookupK (runM (deleteOrPatchSubnetwork mapCloud) baseScope
            subnetABCloud).snd.cloud.subnets (RegionalKey "sub1" baseScope.region) =
          some { name := "sub1", network := "", description := "someone-else", secondaryIpRanges := subtractRanges [⟨"A", "10.0.0.0/24"⟩, ⟨"B", "10.0.1.0/24"⟩] [⟨"B", "10.0.1.0/24"⟩] }) ∧
      (subtractRanges [⟨"A", "10.0.0.0/24"⟩, ⟨"B", "10.0.1.0/24"⟩] [⟨"B", "10.0.1.0/24"⟩] =
          [⟨"A", "10.0.0.0/24"⟩, ⟨"B", "10.0.1.0/24"⟩] →
        (runM (deleteOrPatchSubnetwork mapCloud) baseScope subnetABCloud).snd.calls =
          [.getSubnetwork (RegionalKey "sub1" baseScope.region)] ∧
        (runM (deleteOrPatchSubnetwork mapCloud) baseScope subnetABCloud).snd.cloud =
          subnetABCloud)) :=
  ⟨by decide, by decide,
    (c6_delete_or_restore baseScope subnetABCloud
      { name := "sub1", network := "", description := "", secondaryIpRanges := [⟨"B", "10.0.1.0/24"⟩] }
      { name := "sub1", network := "", description := "someone-else", secondaryIpRanges := [⟨"A", "10.0.0.0/24"⟩, ⟨"B", "10.0.1.0/24"⟩] }
      (by decide) (by decide)).2⟩

/-- Claim C4: after a successful reconciliation (cluster network phase
followed by the machine instance phase) a second reconciliation against
the unchanged desired spec and provider state succeeds, leaves the
provider state untouched and issues only Get and List calls — no Insert,
Patch, Delete, AddInstances or RemoveInstances. -/
theorem c4_reconcile_idempotent (sc : ScopeState) (cl : CloudState)
    (h : (runM (systemReconcile mapCloud) sc cl).fst = none) :
    (runM (systemReconcile mapCloud)
      (runM (systemReconcile mapCloud) sc cl).snd.scope
      (runM (systemReconcile mapCloud) sc cl).snd.cloud).fst = none ∧
    (runM (systemReconcile mapCloud)
      (runM (systemReconcile mapCloud) sc cl).snd.scope
      (runM (systemReconcile mapCloud) sc cl).snd.cloud).snd.cloud =
      (runM (systemReconcile mapCloud) sc cl).snd.cloud ∧
    ((runM (systemReconcile mapCloud)
      (runM (systemReconcile mapCloud) sc cl).snd.scope
      (runM (systemReconcile mapCloud) sc cl).snd.cloud).snd.calls.all
        (fun c => !c.isMutation)) = true := by
  have h1 : (systemReconcile mapCloud ⟨sc, cl, []⟩).fst = none := h
  obtain ⟨ho, hnc, hsc, hic, hbd⟩ := systemReconcile_run sc cl [] h1
  obtain ⟨r1, r2, r3⟩ := systemReconcile_closed
    (systemReconcile mapCloud ⟨sc, cl, []⟩).snd.scope
    (systemReconcile mapCloud ⟨sc, cl, []⟩).snd.cloud [] hnc hsc hic hbd
  refine ⟨r1, r2, ?_⟩
  obtain ⟨l, hl, hro⟩ := r3
  have hl2 : (systemReconcile mapCloud
      ⟨(systemReconcile mapCloud ⟨sc, cl, []⟩).snd.scope,
        (systemReconcile mapCloud ⟨sc, cl, []⟩).snd.cloud, []⟩).snd.calls = l := by
    rw [hl]
    simp
  rw [show (runM (systemReconcile mapCloud)
      (runM (systemReconcile mapCloud) sc cl).snd.scope
      (runM (systemReconcile mapCloud) sc cl).snd.cloud).snd.calls =
    (systemReconcile mapCloud
      ⟨(systemReconcile mapCloud ⟨sc, cl, []⟩).snd.scope,
        (systemReconcile mapCloud ⟨sc, cl, []⟩).snd.cloud, []⟩).snd.calls from rfl, hl2]
  rw [List.all_eq_true]
  intro c hc
  rw [hro c hc]
  rfl

/-- A cloud already populated with the converged resources for the base
scope: owned network, router, subnet covering range B, stored RUNNING
instance registered in the group. -/
def convergedCloud : CloudState :=
  { networks := [(GlobalKey "net", { name := "net", description := ClusterTagKey "clu", selfLink := "net-link" })],
    routers := [(RegionalKey "nat" "reg", { name := "nat", network := "net-link", description := ClusterTagKey "clu", selfLink := "nat-link" })],
    subnets := [(RegionalKey "sub1" "reg", { name := "sub1", network := "net-link", description := ClusterTagKey "clu", secondaryIpRanges := [⟨"B", "10.0.1.0/24"⟩] })],
    instances := [(ZonalKey "m1" "zo", baseScope.instanceSpec)],
    groups := [(ZonalKey "cpg" "zo", ["m1-link"])] }

/-- Witness for Claim C4 at a concrete converged state. -/
theorem c4_reconcile_idempotent_witness :
    (runM (systemReconcile mapCloud) baseScope convergedCloud).fst = none ∧
    ((runM (systemReconcile mapCloud)
      (runM (systemReconcile mapCloud) baseScope convergedCloud).snd.scope
      (runM (systemReconcile mapCloud) baseScope convergedCloud).snd.cloud).fst = none ∧
    (runM (systemReconcile mapCloud)
      (runM (systemReconcile mapCloud) baseScope convergedCloud).snd.scope
      (runM (systemReconcile mapCloud) baseScope convergedCloud).snd.cloud).snd.cloud =
      (runM (systemReconcile mapCloud) baseScope convergedCloud).snd.cloud ∧
    ((runM (systemReconcile mapCloud)
      (runM (systemReconcile mapCloud) baseScope convergedCloud).snd.scope
      (runM (systemReconcile mapCloud) baseScope convergedCloud).snd.cloud).snd.calls.all
        (fun c => !c.isMutation)) = true) :=
  ⟨by decide, c4_reconcile_idempotent baseScope convergedCloud (by decide)⟩

/-! ## Claim C7: the final network Delete call and not-found -/

/-- A provider in which the network exists and is self-owned for the c7
scope, the router is absent, and the network Delete call answers with the
chosen error value (modelling, e.g., a concurrent deletion between the
lookup and the delete).  All operations the Delete flow does not reach are
inert. -/
def advDeleteCloud (e : Option GErr) : Cloud Unit :=
  { networksGet := fun _ u => (.ok { name := "net", description := ClusterTagKey "c7", selfLink := "net-link" }, u),
    networksInsert := fun _ _ u => (none, u),
    networksDelete := fun _ u => (e, u),
    routersGet := fun _ u => (.error .notFound, u),
    routersInsert := fun _ _ u => (none, u),
    routersDelete := fun _ u => (none, u),
    subnetworksGet := fun _ u => (.error .notFound, u),
    subnetworksInsert := fun _ _ u => (none, u),
    subnetworksPatch := fun _ _ u => (none, u),
    subnetworksDelete := fun _ u => (none, u),
    instancesGet := fun _ u => (.error .notFound, u),
    instancesInsert := fun _ _ u => (none, u),
    instancesDelete := fun _ u => (none, u),
    instancegroupsListInstances := fun _ _ u => (.ok [], u),
    instancegroupsAddInstances := fun _ _ u => (none, u),
    instancegroupsRemoveInstances := fun _ _ u => (none, u) }

/-- The scope for the c7 run: no subnet specs, recorded self-links set. -/
def c7Scope : ScopeState :=
  { name := "c7", region := "reg", zone := "zo", networkName := "net",
    networkSpec := { name := "net", description := ClusterTagKey "c7", selfLink := "net-link" },
    natRouterSpec := { name := "nat", network := "", description := "", selfLink := "nat-link" },
    subnetworksSpec := [], instanceSpec := { name := "m1", selfLink := "m1-link", status := "", metadataItems := [], networkInterfaces := [] },
    controlPlaneGroupName := "cpg", isControlPlane := false, bootstrapData := .ok "",
    netRouter := some "nat-link", netSelfLink := some "net-link", providerID := none,
    addresses := [], instanceStatus := none }

/-- Counterexample for Claim C7: when the provider reports not-found at
the final network Delete call, Delete does not succeed — it returns the
not-found error — and the recorded self-links are not cleared. -/
theorem c7_counterexample :
    (runM (networkDelete (advDeleteCloud (some GErr.notFound))) c7Scope ()).fst =
      some GErr.notFound ∧
    (runM (networkDelete (advDeleteCloud (some GErr.notFound))) c7Scope ()).snd.scope.netSelfLink =
      some "net-link" ∧
    (runM (networkDelete (advDeleteCloud (some GErr.notFound))) c7Scope ()).snd.scope.netRouter =
      some "nat-link" := by
  exact ⟨rfl, rfl, rfl⟩

/-- Claim C7 (amended): during network Delete of a self-owned network the
router deletion tolerates not-found, but the final network Delete call
does not: whatever error value the network Delete call returns — not-found
included — is propagated as the result of Delete, and the recorded
self-links are cleared exactly when that call returns no error. -/
theorem c7_network_delete_propagates (e : Option GErr) :
    (runM (networkDelete (advDeleteCloud e)) c7Scope ()).fst = e ∧
    ((runM (networkDelete (advDeleteCloud e)) c7Scope ()).snd.scope.netSelfLink =
      if e = none then none else some "net-link") ∧
    ((runM (networkDelete (advDeleteCloud e)) c7Scope ()).snd.scope.netRouter =
      if e = none then none else some "nat-link") := by
  cases e with
  | none => exact ⟨rfl, rfl, rfl⟩
  | some e2 => cases e2 <;> exact ⟨rfl, rfl, rfl⟩

theorem registerControlPlaneInstance_outputs (sc : ScopeState) (cl : CloudState)
    (cs : List CloudCall) (inst : Instance) :
    (registerControlPlaneInstance mapCloud inst ⟨sc, cl, cs⟩).snd.scope = sc := by
  cases hgq : lookupK cl.groups (ZonalKey sc.controlPlaneGroupName sc.zone) with
  | none =>
    rw [registerControlPlaneInstance_groupMissing sc cl cs inst hgq]
  | some members =>
    cases hcond : (!((runningOf cl members).contains inst.selfLink)
        && inst.status == instanceStatusRunning) with
    | false =>
      rw [registerControlPlaneInstance_closed sc cl cs inst members hgq hcond]
    | true =>
      rw [registerControlPlaneInstance_add sc cl cs inst members hgq hcond]

theorem instanceReconcile_outputs (sc : ScopeState) (cl : CloudState) (cs : List CloudCall) :
    outputsOnly sc (instanceReconcile mapCloud ⟨sc, cl, cs⟩).snd.scope := by
  cases hb : sc.bootstrapData with
  | error e =>
    have hmain : instanceReconcile mapCloud ⟨sc, cl, cs⟩ = (some e, ⟨sc, cl, cs⟩) := by
      simp only [instanceReconcile, mBind, mPure]
      rw [createOrGetInstance_err sc cl cs e hb]
      rfl
    rw [hmain]
    exact outputsOnly_refl sc
  | ok bd =>
    obtain ⟨i, cl2, l, hrun, hi, h1, h2, h3, h4, h5⟩ := createOrGetInstance_run sc cl cs bd hb
    cases hcp : sc.isControlPlane with
    | false =>
      have hmain : instanceReconcile mapCloud ⟨sc, cl, cs⟩ =
          (none, ⟨scopeWithInstanceOutputs sc i, cl2, cs ++ l⟩) := by
        simp only [instanceReconcile, mBind, mPure, getScope, modScope, hrun,
          scopeWithInstanceOutputs]
        simp [hcp, mPure, mBind, modScope, getScope]
      rw [hmain]
      simp [outputsOnly, scopeWithInstanceOutputs]
    | true =>
      have hmain : instanceReconcile mapCloud ⟨sc, cl, cs⟩ =
          registerControlPlaneInstance mapCloud i
            ⟨scopeWithInstanceOutputs sc i, cl2, cs ++ l⟩ := by
        simp only [instanceReconcile, mBind, mPure, getScope, modScope, hrun,
          scopeWithInstanceOutputs]
        simp [hcp]
      rw [hmain, registerControlPlaneInstance_outputs (scopeWithInstanceOutputs sc i) cl2
        (cs ++ l) i]
      simp [outputsOnly, scopeWithInstanceOutputs]

/-- Claim C8: the reconciliation run treats the scope-supplied desired
specs as read-only — after the composed network and instance Reconcile,
the scope's NAT-router spec, subnet spec list and instance spec are
unchanged; the cross-resource injections (self-link and ownership tag
into router and subnet specs, user-data into instance metadata) happen on
the local copies submitted to the provider, never on the scope's specs. -/
theorem c8_specs_read_only (sc : ScopeState) (cl : CloudState) :
    (runM (systemReconcile mapCloud) sc cl).snd.scope.natRouterSpec = sc.natRouterSpec ∧
    (runM (systemReconcile mapCloud) sc cl).snd.scope.subnetworksSpec = sc.subnetworksSpec ∧
    (runM (systemReconcile mapCloud) sc cl).snd.scope.instanceSpec = sc.instanceSpec ∧
    (runM (systemReconcile mapCloud) sc cl).snd.scope.networkSpec = sc.networkSpec := by
  obtain ⟨hn1, hno, _⟩ := networkReconcile_run sc cl []
  have h0 : systemReconcile mapCloud ⟨sc, cl, []⟩ =
      instanceReconcile mapCloud (networkReconcile mapCloud ⟨sc, cl, []⟩).snd := by
    simp only [systemReconcile, mBind, hn1]
  have hio := instanceReconcile_outputs
    (networkReconcile mapCloud ⟨sc, cl, []⟩).snd.scope
    (networkReconcile mapCloud ⟨sc, cl, []⟩).snd.cloud
    (networkReconcile mapCloud ⟨sc, cl, []⟩).snd.calls
  have ho := outputsOnly_trans hno hio
  obtain ⟨f1, f2, f3, f4, f5, f6, f7, f8, f9, f10, f11⟩ := ho
  have hrw : (runM (systemReconcile mapCloud) sc cl).snd.scope =
      (instanceReconcile mapCloud
        ⟨(networkReconcile mapCloud ⟨sc, cl, []⟩).snd.scope,
          (networkReconcile mapCloud ⟨sc, cl, []⟩).snd.cloud,
          (networkReconcile mapCloud ⟨sc, cl, []⟩).snd.calls⟩).snd.scope := by
    show (systemReconcile mapCloud ⟨sc, cl, []⟩).snd.scope = _
    rw [h0]
  rw [hrw]
  exact ⟨f6, f7, f8, f5⟩

/-- Claim C9: the cluster controller invokes the component reconcilers in
the fixed order network, then firewall, then load balancer on the create
path, and in the exact reverse order load balancer, then firewall, then
network on the delete path; a later component is invoked only after every
earlier one in that order has returned successfully, and the first error
aborts the sequence. -/
theorem c9_component_order {σ : Type} (C : Cloud σ) (s : RState σ)
    (pre fw lb lbd fwd : Option GErr) :
    ((gcpClusterReconcile C pre fw lb s).fst.snd = [] ∨
      (gcpClusterReconcile C pre fw lb s).fst.snd = [Comp.network] ∨
      (gcpClusterReconcile C pre fw lb s).fst.snd = [Comp.network, Comp.firewall] ∨
      (gcpClusterReconcile C pre fw lb s).fst.snd =
        [Comp.network, Comp.firewall, Comp.loadbalancer]) ∧
    (pre = none → Comp.network ∈ (gcpClusterReconcile C pre fw lb s).fst.snd) ∧
    (Comp.firewall ∈ (gcpClusterReconcile C pre fw lb s).fst.snd →
      pre = none ∧ (networkReconcile C s).fst = none) ∧
    (Comp.loadbalancer ∈ (gcpClusterReconcile C pre fw lb s).fst.snd →
      pre = none ∧ (networkReconcile C s).fst = none ∧ fw = none) ∧
    ((gcpClusterReconcile C pre fw lb s).fst.fst = none ↔
      pre = none ∧ (networkReconcile C s).fst = none ∧ fw = none ∧ lb = none) ∧
    ((gcpClusterReconcileDelete C lbd fwd s).fst.snd = [Comp.loadbalancer] ∨
      (gcpClusterReconcileDelete C lbd fwd s).fst.snd =
        [Comp.loadbalancer, Comp.firewall] ∨
      (gcpClusterReconcileDelete C lbd fwd s).fst.snd =
        [Comp.loadbalancer, Comp.firewall, Comp.network]) ∧
    Comp.loadbalancer ∈ (gcpClusterReconcileDelete C lbd fwd s).fst.snd ∧
    (Comp.firewall ∈ (gcpClusterReconcileDelete C lbd fwd s).fst.snd → lbd = none) ∧
    (Comp.network ∈ (gcpClusterReconcileDelete C lbd fwd s).fst.snd →
      lbd = none ∧ fwd = none) ∧
    ((gcpClusterReconcileDelete C lbd fwd s).fst.fst = none ↔
      lbd = none ∧ fwd = none ∧ (networkDelete C s).fst = none) := by
  cases pre <;> cases fw <;> cases lb <;> cases lbd <;> cases fwd <;>
    cases hnet : (networkReconcile C s).fst <;>
    cases hnetd : (networkDelete C s).fst <;>
    simp_all [gcpClusterReconcile, gcpClusterReconcileDelete, mBind, mPure]

theorem c9_component_order_witness :
    (none : Option GErr) = none ∧
    (networkReconcile mapCloud ⟨baseScope, emptyCloud, []⟩).fst = none :=
  (c9_component_order mapCloud ⟨baseScope, emptyCloud, []⟩
      none none none none none).2.2.1 (by decide)

end CAPG

